import Mathlib

/-!
# Scraper: listing extraction, category crawl and orchestration

A shallow embedding of `backend/scraper.js` (`scrapeByQuestionType`,
`scrapeAllQuestions`) and of the `/api/start-scraping` handler of
`backend/server.js`.

JavaScript strings are Lean `String`s; the string operations used by the source
(`trim`, `startsWith`, `replace`, `toUpperCase`, the badge regular expression)
are defined on the character lists of the strings.

Everything the program does to the outside world (HTTP fetches, browser calls,
sink saves, channel writes) is recorded, in order, in a list of `Action`s.  The
answers of the outside world are data: a crawl fetches each page number at most
once and processes each stub once, so the answers it meets are given page by page
and block by block (`Site`, `BlockRun`); a run meets one site per question type
(`RunEnv`).  A call that rejects is an `Outcome.threw` with the message of the
error.  The channel is either there or not (`client?.write`), and writing to it
does not fail.

The loop `while (true)` of `scrapeByQuestionType` takes a bound on its number of
iterations; a crawl that is still running when the bound is reached has result
`running`.  A crawl can also be left by an error: the loading of the fetched data
by cheerio is outside every `try`, and so is the call of the crawl in
`scrapeAllQuestions`.
-/

namespace Scraper

/-! ## String primitives -/

/-- The constant `baseUrl` of `scraper.js`. -/
def baseUrl : String := "https://myschool.ng"

/-- JavaScript white space and line terminators: the characters removed by
`String.prototype.trim` and matched by `\s` in a regular expression. -/
def isJsSpace (c : Char) : Bool :=
  c.toNat = 0x09 || c.toNat = 0x0A || c.toNat = 0x0B || c.toNat = 0x0C || c.toNat = 0x0D ||
  c.toNat = 0x20 || c.toNat = 0xA0 || c.toNat = 0x1680 ||
  (0x2000 ≤ c.toNat && c.toNat ≤ 0x200A) ||
  c.toNat = 0x2028 || c.toNat = 0x2029 || c.toNat = 0x202F || c.toNat = 0x205F ||
  c.toNat = 0x3000 || c.toNat = 0xFEFF

/-- The regular-expression class `\d`: the ten ASCII digits. -/
def isJsDigit (c : Char) : Bool :=
  0x30 ≤ c.toNat && c.toNat ≤ 0x39

/-- Upper-casing of one character, on the ASCII letters. -/
def upperChar (c : Char) : Char :=
  if 0x61 ≤ c.toNat ∧ c.toNat ≤ 0x7A then Char.ofNat (c.toNat - 32) else c

/-- Lower-casing of one character, on the ASCII letters. -/
def lowerChar (c : Char) : Char :=
  if 0x41 ≤ c.toNat ∧ c.toNat ≤ 0x5A then Char.ofNat (c.toNat + 32) else c

/-- The method `toUpperCase`, restricted to the ASCII letters.  It is exact on
ASCII strings, which is what the source applies it to in a run: the three
question types of line 127 and the matched exam-type token.  On a string with
other letters (`théorie`) the method of the source upper-cases those too. -/
def toUpperCase (s : String) : String :=
  String.mk (s.data.map upperChar)

/-- The method `toLowerCase`, exact for the comparison with `"explanation"`. -/
def toLowerCase (s : String) : String :=
  String.mk (s.data.map lowerChar)

/-- The method `trim` on a character list. -/
def trimChars (cs : List Char) : List Char :=
  ((cs.dropWhile isJsSpace).reverse.dropWhile isJsSpace).reverse

/-- The method `trim`. -/
def trim (s : String) : String :=
  String.mk (trimChars s.data)

/-- The method `startsWith`. -/
def startsWith (s p : String) : Bool :=
  p.data.isPrefixOf s.data

/-- Removes the first occurrence of `pat` in `cs`, if there is one. -/
def removeFirstChars (pat : List Char) : List Char → List Char
  | [] => []
  | c :: cs =>
    if pat.isPrefixOf (c :: cs) then (c :: cs).drop pat.length
    else c :: removeFirstChars pat cs

/-- The call `s.replace(pat, "")` with a string pattern: the first occurrence of
`pat` is removed. -/
def removeFirst (s pat : String) : String :=
  String.mk (removeFirstChars pat.data s.data)

/-! ## Data model -/

/-- One `li` of a question block: the text of its `strong` children and its own
text. -/
structure OptionItem where
  strongText : String
  text : String
deriving DecidableEq, Repr

/-- What the cheerio selectors of the listing extraction read from one
`.media-body` block, before any processing by the source. -/
structure Block where
  questionDesc : String
  items : List OptionItem
  href : Option String
  badgeText : String
deriving DecidableEq, Repr

/-- The element pushed on `questionList`. -/
structure QuestionStub where
  question : String
  options : List String
  detailLink : String
  examType : String
  year : String
deriving DecidableEq, Repr

/-- The document passed to `WaecQuestion.create`. -/
structure EnrichedQuestion where
  question : String
  options : List String
  answer : String
  explanation : String
  examType : String
  year : String
  subject : String
  questionType : String
  detailLink : String
deriving DecidableEq, Repr

/-- The object serialised by `JSON.stringify` and written to the channel as
`data: <json>\n\n`.  An absent `totalScraped` is `none`, an absent `completed` is
`false`. -/
structure ProgressEvent where
  type : String
  message : String
  totalScraped : Option Nat
  completed : Bool
deriving DecidableEq, Repr

/-! ## Listing extraction (`scraper.js`, lines 32-51) -/

/-- Line 44: `link && link.startsWith("http") ? link : baseUrl + link`, where
`link` is the `href` attribute (`none` when the attribute is absent, which the
template renders as `undefined`). -/
def detailLinkOf (link : Option String) : String :=
  match link with
  | none => baseUrl ++ "undefined"
  | some l => if l ≠ "" ∧ startsWith l "http" = true then l else baseUrl ++ l

/-- Case-insensitive match of one pattern letter (given in upper case). -/
def ciChar (p c : Char) : Bool :=
  upperChar c = p

/-- Case-insensitive match of the alternation `(WAEC|NECO|JAMB)` at the head of
`cs`: the matched text and the rest. -/
def matchToken (cs : List Char) : Option (List Char × List Char) :=
  match cs with
  | a :: b :: c :: d :: rest =>
    if ciChar 'W' a && ciChar 'A' b && ciChar 'E' c && ciChar 'C' d then some ([a, b, c, d], rest)
    else if ciChar 'N' a && ciChar 'E' b && ciChar 'C' c && ciChar 'O' d then some ([a, b, c, d], rest)
    else if ciChar 'J' a && ciChar 'A' b && ciChar 'M' c && ciChar 'B' d then some ([a, b, c, d], rest)
    else none
  | _ => none

/-- Match of `\d{4}` at the head of `cs`: the four digits. -/
def matchYear (cs : List Char) : Option (List Char) :=
  match cs with
  | a :: b :: c :: d :: _ =>
    if isJsDigit a && isJsDigit b && isJsDigit c && isJsDigit d then some [a, b, c, d] else none
  | _ => none

/-- Match of `(WAEC|NECO|JAMB)\s+(\d{4})` anchored at the head of `cs`: the two
capture groups.  The greedy `\s+` takes every white-space character; giving one
back cannot help, since a digit is never white space. -/
def matchHere (cs : List Char) : Option (List Char × List Char) :=
  match matchToken cs with
  | none => none
  | some (tok, rest) =>
    match rest with
    | [] => none
    | s :: rest1 =>
      if isJsSpace s then
        match matchYear (rest1.dropWhile isJsSpace) with
        | none => none
        | some yr => some (tok, yr)
      else none

/-- The call `badge.match(/(WAEC|NECO|JAMB)\s+(\d{4})/i)`: the capture groups of
the leftmost match, or `none`. -/
def badgeMatch : List Char → Option (List Char × List Char)
  | [] => none
  | c :: cs =>
    match matchHere (c :: cs) with
    | some m => some m
    | none => badgeMatch cs

/-- Lines 46-48: exam type and year of a badge. -/
def parseBadge (badge : String) : String × String :=
  match badgeMatch badge.data with
  | none => ("WAEC", "Unknown")
  | some (tok, yr) =>
    let up := toUpperCase (String.mk tok)
    (if up = "" then "WAEC" else up, if String.mk yr = "" then "Unknown" else String.mk yr)

/-- Lines 38-42: one option string. -/
def optionOf (li : OptionItem) : String :=
  let label := trim li.strongText
  let text := trim (removeFirst li.text label)
  if label ≠ "" then label ++ " " ++ text else text

/-- Lines 33-50: the stub built from one block. -/
def extractStub (b : Block) : QuestionStub :=
  let pb := parseBadge (trim b.badgeText)
  QuestionStub.mk (trim b.questionDesc) (b.items.map optionOf) (detailLinkOf b.href) pb.1 pb.2

/-! ## The outside world of a crawl -/

/-- Result of one awaited call: it resolves with a value, or rejects with an
error whose `message` is given. -/
inductive Outcome (α : Type) where
  | threw (message : String)
  | ok (value : α)
deriving DecidableEq, Repr

/-- Whether the call resolved. -/
def Outcome.isOk {α : Type} : Outcome α → Bool
  | Outcome.threw _ => false
  | Outcome.ok _ => true

/-- One `div.mb-4` of a detail page: the texts of its `h5` descendants and the
text of its first `p`, if it has one. -/
structure Container where
  headings : List String
  firstParagraph : Option String
deriving DecidableEq, Repr

/-- How the browser page answers the four awaited calls of the enrichment of
one stub (lines 60-77).  A call is made only when the calls before it
resolved. -/
structure DetailResponses where
  goto : Outcome Unit
  waitForSelector : Outcome Unit
  evalHeading : Outcome String
  evaluate : Outcome (List Container)
deriving DecidableEq, Repr

/-- One question block of a listing page together with the answers the outside
world gives while the stub of that block is processed: those of the browser page
and that of `WaecQuestion.create`. -/
structure BlockRun where
  block : Block
  detail : DetailResponses
  create : Outcome Unit
deriving DecidableEq, Repr

/-- What `axios.get` resolves with (the `data` of the response): markup, given by
the `.media-body` blocks cheerio finds in it, or something `cheerio.load` cannot
load (`null`, for one), on which line 24 throws an error with the given
message. -/
inductive PageData where
  | markup (blocks : List BlockRun)
  | unloadable (message : String)
deriving DecidableEq, Repr

/-- What a category crawl meets: for each page number the outcome of `axios.get`
on the url of that page.  A crawl fetches a page number at most once. -/
abbrev Site := Nat → Outcome PageData

/-- State of a call of `scrapeByQuestionType`: still in its loop when the fuel ran
out, returned with a count, or left by an error thrown outside its `try` blocks
(the returned promise rejects). -/
inductive CrawlResult where
  | running
  | returned (count : Nat)
  | threw (message : String)
deriving DecidableEq, Repr

/-- The externally visible steps of the program, in the order they happen.
Calls that can reject carry whether they resolved. -/
inductive Action where
  | launch (ok : Bool)
  | newPage (ok : Bool)
  | close
  | get (url : String) (ok : Bool)
  | goto (url : String) (ok : Bool)
  | waitForSelector (ok : Bool)
  | evalHeading (ok : Bool)
  | evaluate (ok : Bool)
  | create (doc : EnrichedQuestion) (ok : Bool)
  | write (ev : ProgressEvent)
deriving DecidableEq, Repr

/-- The statement `client?.write(...)`: one write when a channel is there,
nothing otherwise. -/
def emit (client : Bool) (ev : ProgressEvent) : List Action :=
  if client then [Action.write ev] else []

/-! ## Detail enrichment and save (`scraper.js`, lines 54-101) -/

/-- Lines 63-65: the answer read from the text of the answer heading. -/
def answerOf (textContent : String) : String :=
  trim (removeFirst textContent "Correct Answer:")

/-- Lines 67-77: the explanation found in the content containers. -/
def explanationOf : List Container → String
  | [] => "No explanation"
  | c :: cs =>
    if c.headings.any (fun h => toLowerCase (trim h) = "explanation") then
      match c.firstParagraph with
      | none => "No explanation"
      | some t => if trim t = "" then "No explanation" else trim t
    else explanationOf cs

/-- The event of line 59. -/
def visitingEvent (q : QuestionStub) (totalScraped : Nat) : ProgressEvent :=
  ProgressEvent.mk "info" ("🔗 Visiting detail: " ++ q.detailLink) (some totalScraped) false

/-- The event of line 79. -/
def successEvent (totalScraped : Nat) : ProgressEvent :=
  ProgressEvent.mk "success" "✅ Scraped answer & explanation" (some totalScraped) false

/-- The event of line 81. -/
def detailWarning (message : String) (totalScraped : Nat) : ProgressEvent :=
  ProgressEvent.mk "warning" ("⚠️ Detail scrape failed: " ++ message) (some totalScraped) false

/-- Lines 55-82: the enrichment of one stub.  Returns the steps taken and the
values of `answer` and `explanation` after the `try`. -/
def enrich (client : Bool) (totalScraped : Nat) (q : QuestionStub) (r : DetailResponses) :
    List Action × String × String :=
  let visiting := emit client (visitingEvent q totalScraped)
  match r.goto with
  | Outcome.threw m =>
    (visiting ++ [Action.goto q.detailLink false] ++ emit client (detailWarning m totalScraped),
      "N/A", "No explanation")
  | Outcome.ok _ =>
    match r.waitForSelector with
    | Outcome.threw m =>
      (visiting ++ [Action.goto q.detailLink true, Action.waitForSelector false]
          ++ emit client (detailWarning m totalScraped),
        "N/A", "No explanation")
    | Outcome.ok _ =>
      match r.evalHeading with
      | Outcome.threw m =>
        (visiting ++ [Action.goto q.detailLink true, Action.waitForSelector true,
            Action.evalHeading false] ++ emit client (detailWarning m totalScraped),
          "N/A", "No explanation")
      | Outcome.ok text =>
        match r.evaluate with
        | Outcome.threw m =>
          (visiting ++ [Action.goto q.detailLink true, Action.waitForSelector true,
              Action.evalHeading true, Action.evaluate false]
              ++ emit client (detailWarning m totalScraped),
            answerOf text, "No explanation")
        | Outcome.ok containers =>
          (visiting ++ [Action.goto q.detailLink true, Action.waitForSelector true,
              Action.evalHeading true, Action.evaluate true]
              ++ emit client (successEvent totalScraped),
            answerOf text, explanationOf containers)

/-- Lines 85-95: the document built for a stub. -/
def documentOf (questionType subjectName : String) (q : QuestionStub)
    (answer explanation : String) : EnrichedQuestion :=
  EnrichedQuestion.mk q.question q.options answer explanation q.examType q.year subjectName
    questionType q.detailLink

/-- The event of line 97. -/
def savedEvent (totalScraped : Nat) : ProgressEvent :=
  ProgressEvent.mk "saved" ("💾 Saved question #" ++ toString totalScraped) (some totalScraped) false

/-- The event of line 99. -/
def saveError (message : String) (totalScraped : Nat) : ProgressEvent :=
  ProgressEvent.mk "error" ("❌ Save error: " ++ message) (some totalScraped) false

/-- Lines 84-100: the save of one document.  Returns the steps taken and the new
value of `totalScraped`. -/
def save (client : Bool) (totalScraped : Nat) (doc : EnrichedQuestion) (r : Outcome Unit) :
    List Action × Nat :=
  match r with
  | Outcome.ok _ =>
    (Action.create doc true :: emit client (savedEvent (totalScraped + 1)), totalScraped + 1)
  | Outcome.threw m =>
    (Action.create doc false :: emit client (saveError m totalScraped), totalScraped)

/-- The document saved for a block: its stub, enriched. -/
def recordOf (questionType subjectName : String) (b : BlockRun) : EnrichedQuestion :=
  let e := enrich false 0 (extractStub b.block) b.detail
  documentOf questionType subjectName (extractStub b.block) e.2.1 e.2.2

/-- Lines 54-101: the loop over `questionList`.  The stub of a block is the pure
function `extractStub` of the block, so it is computed here where it is used.
Returns the steps taken and the final `totalScraped`. -/
def processStubs (client : Bool) (questionType subjectName : String) :
    Nat → List BlockRun → List Action × Nat
  | totalScraped, [] => ([], totalScraped)
  | totalScraped, b :: bs =>
    let q := extractStub b.block
    let e := enrich client totalScraped q b.detail
    let s := save client totalScraped (documentOf questionType subjectName q e.2.1 e.2.2) b.create
    let rest := processStubs client questionType subjectName s.2 bs
    (e.1 ++ s.1 ++ rest.1, rest.2)

/-! ## The category crawl (`scrapeByQuestionType`) -/

/-- Line 13: the url of a listing page. -/
def pageUrl (subjectSlug questionType : String) (currentPage : Nat) : String :=
  baseUrl ++ "/classroom/" ++ subjectSlug ++ "?exam_type=waec&question_type=" ++ questionType
    ++ "&page=" ++ toString currentPage

/-- The event of line 14. -/
def pageEvent (questionType : String) (currentPage totalScraped : Nat) : ProgressEvent :=
  ProgressEvent.mk "info"
    ("📄 Scraping " ++ toUpperCase questionType ++ " page " ++ toString currentPage)
    (some totalScraped) false

/-- The event of line 20. -/
def fetchError (currentPage : Nat) (message : String) (totalScraped : Nat) : ProgressEvent :=
  ProgressEvent.mk "error"
    ("❌ Fetch failed for page " ++ toString currentPage ++ ": " ++ message)
    (some totalScraped) false

/-- The event of line 27. -/
def emptyWarning (questionType : String) (totalScraped : Nat) : ProgressEvent :=
  ProgressEvent.mk "warning" ("🛑 No " ++ questionType ++ " questions found. Moving on.")
    (some totalScraped) false

/-- Lines 12-104: the `while (true)` loop, started with the given `currentPage`
and `totalScraped`.  `fuel` bounds the number of iterations: the result is
`running` when the loop is still running after `fuel` iterations, and the steps
are those taken so far.  The fetch is inside a `try` (lines 17-22); the loading
of the fetched data by cheerio (line 24) is not, so an error there leaves the
function. -/
def crawlLoop (site : Site) (client : Bool) (questionType subjectName subjectSlug : String) :
    Nat → Nat → Nat → List Action × CrawlResult
  | 0, _, _ => ([], CrawlResult.running)
  | fuel + 1, currentPage, totalScraped =>
    let info := emit client (pageEvent questionType currentPage totalScraped)
    let url := pageUrl subjectSlug questionType currentPage
    match site currentPage with
    | Outcome.threw m =>
      (info ++ [Action.get url false]
        ++ emit client (fetchError currentPage m totalScraped),
        CrawlResult.returned totalScraped)
    | Outcome.ok (PageData.unloadable m) =>
      (info ++ [Action.get url true], CrawlResult.threw m)
    | Outcome.ok (PageData.markup []) =>
      (info ++ [Action.get url true]
        ++ emit client (emptyWarning questionType totalScraped),
        CrawlResult.returned totalScraped)
    | Outcome.ok (PageData.markup (b :: bs)) =>
      let stubs := processStubs client questionType subjectName totalScraped (b :: bs)
      let rest := crawlLoop site client questionType subjectName subjectSlug fuel
        (currentPage + 1) stubs.2
      (info ++ [Action.get url true] ++ stubs.1 ++ rest.1, rest.2)

/-- The function `scrapeByQuestionType(page, questionType, subjectName,
subjectSlug, client)`: the steps taken and the returned count. -/
def scrapeByQuestionType (site : Site) (client : Bool)
    (questionType subjectName subjectSlug : String) (fuel : Nat) :
    List Action × CrawlResult :=
  crawlLoop site client questionType subjectName subjectSlug fuel 1 0

/-! ## The orchestrator (`scrapeAllQuestions`) and the trigger -/

/-- A JavaScript value a run can resolve to. -/
inductive JsValue where
  | undefined
  | number (n : Nat)
deriving DecidableEq, Repr

/-- State of the promise of a run: still running when the fuel ran out, resolved
with a value, or rejected with an error message. -/
inductive Completion where
  | pending
  | resolved (value : JsValue)
  | rejected (message : String)
deriving DecidableEq, Repr

/-- What a run meets: the outcomes of `puppeteer.launch` and `browser.newPage`,
and the site met by the crawl of each question type. -/
structure RunEnv where
  launch : Outcome Unit
  newPage : Outcome Unit
  site : String → Site

/-- The event of line 124. -/
def startEvent (subjectName : String) : ProgressEvent :=
  ProgressEvent.mk "start" ("🚀 Starting scrape for " ++ subjectName) (some 0) false

/-- The event of line 134. -/
def endEvent (total : Nat) : ProgressEvent :=
  ProgressEvent.mk "end" ("🎉 Done! " ++ toString total ++ " questions.") (some total) true

/-- Lines 126-130: the loop over the question types, started with the given
`total`.  The call of line 128 is not inside a `try`: an error thrown by a crawl
leaves the loop. -/
def crawlAll (env : RunEnv) (client : Bool) (subjectName subjectSlug : String) (fuel : Nat) :
    List String → Nat → List Action × CrawlResult
  | [], total => ([], CrawlResult.returned total)
  | qt :: qts, total =>
    let c := scrapeByQuestionType (env.site qt) client qt subjectName subjectSlug fuel
    match c.2 with
    | CrawlResult.running => (c.1, CrawlResult.running)
    | CrawlResult.threw m => (c.1, CrawlResult.threw m)
    | CrawlResult.returned n =>
      let rest := crawlAll env client subjectName subjectSlug fuel qts (total + n)
      (c.1 ++ rest.1, rest.2)

/-- The question types of line 127. -/
def questionTypes : List String := ["objective", "theory", "practical"]

/-- The function `scrapeAllQuestions(subjectName, subjectSlug, sessionId,
clients)`: the steps taken and the state of the returned promise.  `clients`
tells for each session id whether a channel is registered. -/
def scrapeAllQuestions (env : RunEnv) (subjectName subjectSlug sessionId : String)
    (clients : String → Bool) (fuel : Nat) : List Action × Completion :=
  match env.launch with
  | Outcome.threw m => ([Action.launch false], Completion.rejected m)
  | Outcome.ok _ =>
    match env.newPage with
    | Outcome.threw m => ([Action.launch true, Action.newPage false], Completion.rejected m)
    | Outcome.ok _ =>
      let client := clients sessionId
      let crawls := crawlAll env client subjectName subjectSlug fuel questionTypes 0
      match crawls.2 with
      | CrawlResult.running =>
        ([Action.launch true, Action.newPage true] ++ emit client (startEvent subjectName)
          ++ crawls.1, Completion.pending)
      | CrawlResult.threw m =>
        ([Action.launch true, Action.newPage true] ++ emit client (startEvent subjectName)
          ++ crawls.1, Completion.rejected m)
      | CrawlResult.returned total =>
        ([Action.launch true, Action.newPage true] ++ emit client (startEvent subjectName)
          ++ crawls.1 ++ [Action.close] ++ emit client (endEvent total),
          Completion.resolved JsValue.undefined)

/-- The body of a request to `/api/start-scraping`; an absent field is `none`. -/
structure Body where
  subjectName : Option String
  subjectSlug : Option String
  sessionId : Option String
deriving DecidableEq, Repr

/-- Truthiness of a body field: present and not the empty string. -/
def truthy (field : Option String) : Bool :=
  match field with
  | none => false
  | some s => s ≠ ""

/-- The event of lines 113-117 of `server.js`. -/
def startingEvent (subjectName : String) : ProgressEvent :=
  ProgressEvent.mk "info" ("🚀 Starting scrape for " ++ subjectName ++ "...") (some 0) false

/-- The event of lines 124-128 of `server.js`. -/
def completedEvent : ProgressEvent :=
  ProgressEvent.mk "success" "🎉 Scraping completed for all question types!" none true

/-- The event of lines 133-137 of `server.js`. -/
def failedEvent (message : String) : ProgressEvent :=
  ProgressEvent.mk "error" ("❌ Scraping failed: " ++ message) none true

/-- The handler of `POST /api/start-scraping` together with the run it starts and
its completion callbacks: the HTTP status of the response and the steps taken.
The channel looked up by the handler and the one looked up by the run are the
one registered for the session id in `scrapingClients`. -/
def startScraping (env : RunEnv) (scrapingClients : String → Bool) (body : Body) (fuel : Nat) :
    Nat × List Action :=
  if truthy body.subjectName && truthy body.subjectSlug && truthy body.sessionId then
    let subjectName := body.subjectName.getD ""
    let subjectSlug := body.subjectSlug.getD ""
    let sessionId := body.sessionId.getD ""
    let client := scrapingClients sessionId
    let run := scrapeAllQuestions env subjectName subjectSlug sessionId scrapingClients fuel
    let callback :=
      match run.2 with
      | Completion.pending => []
      | Completion.resolved _ => emit client completedEvent
      | Completion.rejected m => emit client (failedEvent m)
    (200, emit client (startingEvent subjectName) ++ run.1 ++ callback)
  else (400, [])

/-! ## Observations on a list of steps -/

/-- The events written to the channel, in order. -/
def events : List Action → List ProgressEvent
  | [] => []
  | Action.write ev :: rest => ev :: events rest
  | _ :: rest => events rest

/-- The urls fetched with `axios.get`, in order. -/
def fetched : List Action → List String
  | [] => []
  | Action.get url _ :: rest => url :: fetched rest
  | _ :: rest => fetched rest

/-- The detail navigations and the saves, in order: the two calls that open and
close the enrich-then-save cycle of a stub. -/
def cycles : List Action → List Action
  | [] => []
  | Action.goto url ok :: rest => Action.goto url ok :: cycles rest
  | Action.create doc ok :: rest => Action.create doc ok :: cycles rest
  | _ :: rest => cycles rest

/-- The documents passed to `WaecQuestion.create`, in order, each with whether
the save succeeded. -/
def creates : List Action → List (EnrichedQuestion × Bool)
  | [] => []
  | Action.create doc ok :: rest => (doc, ok) :: creates rest
  | _ :: rest => creates rest

/-- Number of saves that succeeded. -/
def savedCount (log : List Action) : Nat :=
  ((creates log).filter (fun c => c.2)).length

/-- Number of calls of `browser.close`. -/
def closeCount : List Action → Nat
  | [] => 0
  | Action.close :: rest => closeCount rest + 1
  | _ :: rest => closeCount rest

/-- The `totalScraped` values carried by the events, in order. -/
def totals (log : List Action) : List Nat :=
  (events log).filterMap (fun ev => ev.totalScraped)

/-- The enrichment of the stub of a block fails: one of the four calls rejects. -/
def detailFails (r : DetailResponses) : Bool :=
  !(r.goto.isOk && r.waitForSelector.isOk && r.evalHeading.isOk && r.evaluate.isOk)

/-! ## Vocabulary of the statements

None of the definitions below is part of the program: they name what the
statements and their proofs talk about. -/

/-- Spec-side reading of the badge pattern: the badge splits as
`pre ++ tok ++ ws ++ yr ++ post`, where `tok` is WAEC, NECO or JAMB in some
letter case, `ws` is one or more white-space characters and `yr` is four
digits. -/
def Occurrence (badge pre tok ws yr post : List Char) : Prop :=
  badge = pre ++ tok ++ ws ++ yr ++ post ∧
  (tok.map upperChar = ['W', 'A', 'E', 'C'] ∨ tok.map upperChar = ['N', 'E', 'C', 'O'] ∨
    tok.map upperChar = ['J', 'A', 'M', 'B']) ∧
  ws ≠ [] ∧ (∀ c ∈ ws, isJsSpace c = true) ∧
  yr.length = 4 ∧ (∀ c ∈ yr, isJsDigit c = true)

/-- The blocks of a page (none when the fetch fails or what it resolves with is
not markup). -/
def pageBlocks (site : Site) (p : Nat) : List BlockRun :=
  match site p with
  | Outcome.ok (PageData.markup bs) => bs
  | _ => []

/-- The blocks of the `d` pages `p, p + 1, ..`, in page order and listing
order. -/
def blocksFrom (site : Site) : Nat → Nat → List BlockRun
  | _, 0 => []
  | p, d + 1 => pageBlocks site p ++ blocksFrom site (p + 1) d

/-- The blocks of pages `1 .. k` of a site, in page order and listing order. -/
def blocksUpTo (site : Site) (k : Nat) : List BlockRun :=
  blocksFrom site 1 k

/-- The iteration on a page is the last one: the fetch fails, or what it resolves
with is not markup with at least one question block. -/
def isStop : Outcome PageData → Bool
  | Outcome.ok (PageData.markup (_ :: _)) => false
  | _ => true

/-- The page ends the pagination with a return: the fetch fails, or the page is
markup with no question block. -/
def isEnd : Outcome PageData → Bool
  | Outcome.threw _ => true
  | Outcome.ok (PageData.markup []) => true
  | _ => false

/-- The pagination of a site ends and the crawl returns: some page fails to fetch
or is markup with no question block, and every page before it is markup with at
least one question block. -/
def Halts (site : Site) : Prop :=
  ∃ k, (∀ i, i < k → isStop (site (i + 1)) = false) ∧ isEnd (site (k + 1)) = true

/-- The steps of `d` iterations of the loop of `scrapeByQuestionType` over
non-empty pages, from page `p` and count `t`, and the count after them. -/
def pagesLog (site : Site) (client : Bool) (questionType subjectName subjectSlug : String) :
    Nat → Nat → Nat → List Action × Nat
  | 0, _, t => ([], t)
  | d + 1, p, t =>
    let stubs := processStubs client questionType subjectName t (pageBlocks site p)
    let rest := pagesLog site client questionType subjectName subjectSlug d (p + 1) stubs.2
    (emit client (pageEvent questionType p t)
        ++ [Action.get (pageUrl subjectSlug questionType p) true] ++ stubs.1 ++ rest.1, rest.2)

/-- The steps of the last iteration of the loop, on a page that ends it. -/
def stopLog (client : Bool) (questionType subjectSlug : String) (p t : Nat)
    (o : Outcome PageData) : List Action :=
  match o with
  | Outcome.threw m =>
    emit client (pageEvent questionType p t)
      ++ [Action.get (pageUrl subjectSlug questionType p) false]
      ++ emit client (fetchError p m t)
  | Outcome.ok (PageData.unloadable _) =>
    emit client (pageEvent questionType p t)
      ++ [Action.get (pageUrl subjectSlug questionType p) true]
  | Outcome.ok (PageData.markup _) =>
    emit client (pageEvent questionType p t)
      ++ [Action.get (pageUrl subjectSlug questionType p) true]
      ++ emit client (emptyWarning questionType t)

/-- What the fetch resolves with is markup. -/
def isMarkup : Outcome PageData → Bool
  | Outcome.ok (PageData.markup _) => true
  | _ => false

/-- The result of the loop after its last iteration, with count `t`. -/
def stopResult (t : Nat) (o : Outcome PageData) : CrawlResult :=
  match o with
  | Outcome.ok (PageData.unloadable m) => CrawlResult.threw m
  | _ => CrawlResult.returned t

/-- Every event carries the count `t` raised by the number of successful saves
made before it. -/
def counted : Nat → List Action → Prop
  | _, [] => True
  | t, a :: rest =>
    match a with
    | Action.write ev => ev.totalScraped = some t ∧ counted t rest
    | Action.create _ true => counted (t + 1) rest
    | _ => counted t rest

/-- Number of events that satisfy `f`. -/
def countEvents (f : ProgressEvent → Bool) (log : List Action) : Nat :=
  ((events log).filter f).length

/-- The steps a category crawl can take: no browser launch, page opening or
close, and only events of the five crawl types, not marked completed. -/
def crawlAction : Action → Bool
  | Action.launch _ => false
  | Action.newPage _ => false
  | Action.close => false
  | Action.write ev =>
    (ev.type = "info" || ev.type = "warning" || ev.type = "error" || ev.type = "success"
      || ev.type = "saved") && !ev.completed
  | _ => true

/-- The warning of line 27, for an empty page. -/
def isEmptyWarning (questionType : String) (ev : ProgressEvent) : Bool :=
  ev.type = "warning" && ev.message = "🛑 No " ++ questionType ++ " questions found. Moving on."

/-- The warning of line 81, for a failed enrichment. -/
def isDetailWarning (ev : ProgressEvent) : Bool :=
  ev.type = "warning" && startsWith ev.message "⚠️ Detail scrape failed: "

/-- The error event of line 99, for a failed save. -/
def isSaveError (ev : ProgressEvent) : Bool :=
  ev.type = "error" && startsWith ev.message "❌ Save error: "

/-- The error event of line 20, for a failed page fetch. -/
def isFetchError (ev : ProgressEvent) : Bool :=
  ev.type = "error" && startsWith ev.message "❌ Fetch failed for page "

/-- The steps other than the writes to the channel, in order. -/
def silent : List Action → List Action
  | [] => []
  | Action.write _ :: rest => silent rest
  | a :: rest => a :: silent rest

/-! ## Sample sites and runs -/

/-- A detail page on which every call succeeds. -/
def sampleDetail : DetailResponses :=
  DetailResponses.mk (Outcome.ok ()) (Outcome.ok ()) (Outcome.ok "Correct Answer: B")
    (Outcome.ok [Container.mk ["Explanation"] (some " Two and two make four. ")])

/-- A detail page on which the answer heading is read and the evaluation of the
explanation then rejects. -/
def evaluateFailDetail : DetailResponses :=
  DetailResponses.mk (Outcome.ok ()) (Outcome.ok ()) (Outcome.ok "Correct Answer: B")
    (Outcome.threw "Execution context was destroyed")

/-- A question block with a relative detail link. -/
def sampleBlock : Block :=
  Block.mk " What is 2 + 2? " [OptionItem.mk "A." "A. 3", OptionItem.mk "B." "B. 4"]
    (some "/classroom/q/123") " WAEC 2019 "

/-- A site with no question at all. -/
def emptySite : Site := fun _ => Outcome.ok (PageData.markup [])

/-- One page with one stub that enriches and saves, then an empty page. -/
def oneStubSite : Site := fun p =>
  if p = 1 then Outcome.ok (PageData.markup [BlockRun.mk sampleBlock sampleDetail (Outcome.ok ())])
  else Outcome.ok (PageData.markup [])

/-- One page of ten stubs, then an empty page. -/
def tenStubSite : Site := fun p =>
  if p = 1 then
    Outcome.ok (PageData.markup
      (List.replicate 10 (BlockRun.mk sampleBlock sampleDetail (Outcome.ok ()))))
  else Outcome.ok (PageData.markup [])

/-- One page of two stubs whose saves both fail, then an empty page. -/
def failingSaveSite : Site := fun p =>
  if p = 1 then
    Outcome.ok (PageData.markup
      [BlockRun.mk sampleBlock sampleDetail (Outcome.threw "E11000 duplicate key"),
       BlockRun.mk sampleBlock sampleDetail (Outcome.threw "E11000 duplicate key")])
  else Outcome.ok (PageData.markup [])

/-- One page with one stub, then a page whose fetch fails. -/
def fetchFailSite : Site := fun p =>
  if p = 1 then Outcome.ok (PageData.markup [BlockRun.mk sampleBlock sampleDetail (Outcome.ok ())])
  else Outcome.threw "Request failed with status code 500"

/-- One page with one stub whose explanation cannot be evaluated, then an empty
page. -/
def evaluateFailSite : Site := fun p =>
  if p = 1 then
    Outcome.ok (PageData.markup [BlockRun.mk sampleBlock evaluateFailDetail (Outcome.ok ())])
  else Outcome.ok (PageData.markup [])

/-- A run in which the browser starts and the page opens; one objective and one
theory question, no practical question. -/
def sampleEnv : RunEnv :=
  RunEnv.mk (Outcome.ok ()) (Outcome.ok ())
    (fun qt => if qt = "practical" then emptySite else oneStubSite)

/-- A site whose first page resolves with no data at all. -/
def noDataSite : Site := fun _ =>
  Outcome.ok (PageData.unloadable "cheerio.load() expects a string")

/-- A run in which the browser starts, the page opens and the fetch of the first
objective page resolves with no data. -/
def noDataEnv : RunEnv :=
  RunEnv.mk (Outcome.ok ()) (Outcome.ok ())
    (fun qt => if qt = "objective" then noDataSite else oneStubSite)

/-- A run in which the browser starts and opening the page rejects. -/
def noPageEnv : RunEnv :=
  RunEnv.mk (Outcome.ok ()) (Outcome.threw "Target closed") (fun _ => emptySite)

/-- A registry with a channel for every session id. -/
def allClients : String → Bool := fun _ => true

/-- A registry with no channel at all. -/
def noClients : String → Bool := fun _ => false

/-- A complete request body. -/
def sampleBody : Body :=
  Body.mk (some "Mathematics") (some "mathematics") (some "session-1")

/-! ## Properties -/

theorem startsWith_base (l : String) : startsWith (baseUrl ++ l) "http" = true := by
  simp [startsWith, String.data_append, baseUrl, List.isPrefixOf]

theorem digit_not_space (c : Char) (h : isJsDigit c = true) : isJsSpace c = false := by
  simp only [isJsDigit, Bool.and_eq_true, decide_eq_true_eq] at h
  simp only [isJsSpace, Bool.or_eq_false_iff, Bool.and_eq_false_iff, decide_eq_false_iff_not]
  omega

/-- Claim C1: in the listing extraction, a block whose detail-link `href` is the
string `h` gets `detailLink = h` when `h` starts with `"http"` and
`detailLink = "https://myschool.ng" ++ h` otherwise; `/classroom/q/123` becomes
`https://myschool.ng/classroom/q/123` and `https://x.com/q/9` stays as it is;
and the `detailLink` of every stub, whatever its block, starts with `"http"`. -/
theorem detailLink_absolute :
    (∀ (question : String) (items : List OptionItem) (h badge : String),
      (extractStub (Block.mk question items (some h) badge)).detailLink
        = if startsWith h "http" = true then h else "https://myschool.ng" ++ h) ∧
    (extractStub (Block.mk "" [] (some "/classroom/q/123") "")).detailLink
        = "https://myschool.ng/classroom/q/123" ∧
    (extractStub (Block.mk "" [] (some "https://x.com/q/9") "")).detailLink
        = "https://x.com/q/9" ∧
    (∀ b : Block, startsWith (extractStub b).detailLink "http" = true) := by
  refine ⟨?_, by decide, by decide, ?_⟩
  · intro question items h badge
    simp only [extractStub, detailLinkOf]
    by_cases hs : startsWith h "http" = true
    · have hne : h ≠ "" := by
        rintro rfl
        simp [startsWith] at hs
      simp [hs, hne]
    · simp [hs, baseUrl]
  · intro b
    simp only [extractStub, detailLinkOf]
    cases b.href with
    | none => exact startsWith_base _
    | some l =>
      by_cases hc : l ≠ "" ∧ startsWith l "http" = true
      · dsimp only; rw [if_pos hc]; exact hc.2
      · dsimp only; rw [if_neg hc]; exact startsWith_base _


theorem matchToken_some (cs tok rest : List Char) (h : matchToken cs = some (tok, rest)) :
    cs = tok ++ rest ∧
    (tok.map upperChar = ['W', 'A', 'E', 'C'] ∨ tok.map upperChar = ['N', 'E', 'C', 'O'] ∨
      tok.map upperChar = ['J', 'A', 'M', 'B']) := by
  match cs with
  | [] => simp [matchToken] at h
  | [_] => simp [matchToken] at h
  | [_, _] => simp [matchToken] at h
  | [_, _, _] => simp [matchToken] at h
  | a :: b :: c :: d :: r =>
    simp only [matchToken, ciChar] at h
    split_ifs at h with h1 h2 h3
    · simp only [Option.some.injEq, Prod.mk.injEq] at h
      obtain ⟨rfl, rfl⟩ := h
      simp only [Bool.and_eq_true, decide_eq_true_eq] at h1
      simp [h1]
    · simp only [Option.some.injEq, Prod.mk.injEq] at h
      obtain ⟨rfl, rfl⟩ := h
      simp only [Bool.and_eq_true, decide_eq_true_eq] at h2
      simp [h2]
    · simp only [Option.some.injEq, Prod.mk.injEq] at h
      obtain ⟨rfl, rfl⟩ := h
      simp only [Bool.and_eq_true, decide_eq_true_eq] at h3
      simp [h3]

theorem matchToken_complete (tok rest : List Char)
    (h : tok.map upperChar = ['W', 'A', 'E', 'C'] ∨ tok.map upperChar = ['N', 'E', 'C', 'O'] ∨
      tok.map upperChar = ['J', 'A', 'M', 'B']) :
    matchToken (tok ++ rest) = some (tok, rest) := by
  have hlen : tok.length = 4 := by
    rcases h with h | h | h <;> simpa using congrArg List.length h
  match tok, hlen with
  | [a, b, c, d], _ =>
    simp only [List.map_cons, List.map_nil, List.cons.injEq, and_true] at h
    simp only [List.cons_append, List.nil_append, matchToken, ciChar]
    rcases h with ⟨h1, h2, h3, h4⟩ | ⟨h1, h2, h3, h4⟩ | ⟨h1, h2, h3, h4⟩ <;>
      simp [h1, h2, h3, h4]

theorem matchYear_some (cs yr : List Char) (h : matchYear cs = some yr) :
    ∃ post, cs = yr ++ post ∧ yr.length = 4 ∧ ∀ c ∈ yr, isJsDigit c = true := by
  match cs with
  | [] => simp [matchYear] at h
  | [_] => simp [matchYear] at h
  | [_, _] => simp [matchYear] at h
  | [_, _, _] => simp [matchYear] at h
  | a :: b :: c :: d :: r =>
    simp only [matchYear] at h
    split_ifs at h with h1
    simp only [Option.some.injEq] at h
    subst h
    simp only [Bool.and_eq_true] at h1
    exact ⟨r, by simp, by simp, by simp [h1]⟩

theorem matchYear_complete (yr post : List Char) (hlen : yr.length = 4)
    (hd : ∀ c ∈ yr, isJsDigit c = true) : matchYear (yr ++ post) = some yr := by
  match yr, hlen with
  | [a, b, c, d], _ =>
    simp only [List.mem_cons, List.mem_singleton, forall_eq_or_imp, forall_eq, List.not_mem_nil,
      false_implies, implies_true, and_true] at hd
    simp [matchYear, hd]

theorem dropWhile_spaces (ws rest : List Char) (hws : ∀ c ∈ ws, isJsSpace c = true) :
    (ws ++ rest).dropWhile isJsSpace = rest.dropWhile isJsSpace := by
  induction ws with
  | nil => rfl
  | cons w ws ih =>
    have hw : isJsSpace w = true := hws w (List.mem_cons_self _ _)
    simp only [List.cons_append, List.dropWhile_cons, hw, if_true]
    exact ih (fun c hc => hws c (List.mem_cons_of_mem _ hc))

theorem dropWhile_year (yr post : List Char) (hlen : yr.length = 4)
    (hd : ∀ c ∈ yr, isJsDigit c = true) :
    (yr ++ post).dropWhile isJsSpace = yr ++ post := by
  match yr, hlen with
  | a :: r, _ =>
    have ha : isJsSpace a = false := digit_not_space a (hd a (List.mem_cons_self _ _))
    simp [List.dropWhile_cons, ha]

/-- Soundness of the anchored match: what it returns is an occurrence at the
head. -/
theorem matchHere_some (cs tok yr : List Char) (h : matchHere cs = some (tok, yr)) :
    ∃ ws post, Occurrence cs [] tok ws yr post := by
  unfold matchHere at h
  cases htok : matchToken cs with
  | none => simp [htok] at h
  | some p =>
    obtain ⟨tok1, rest⟩ := p
    obtain ⟨hcs, hcase⟩ := matchToken_some cs tok1 rest htok
    simp only [htok] at h
    cases rest with
    | nil => simp at h
    | cons s rest1 =>
      simp only at h
      split_ifs at h with hs
      cases hy : matchYear (rest1.dropWhile isJsSpace) with
      | none => simp [hy] at h
      | some yr1 =>
        simp only [hy, Option.some.injEq, Prod.mk.injEq] at h
        obtain ⟨rfl, rfl⟩ := h
        obtain ⟨post, hpost, hlen, hdig⟩ := matchYear_some _ _ hy
        refine ⟨s :: rest1.takeWhile isJsSpace, post, ?_, hcase, by simp, ?_, hlen, hdig⟩
        · rw [hcs]
          simp only [List.nil_append, List.append_assoc, List.cons_append]
          rw [← hpost, List.takeWhile_append_dropWhile]
        · intro c hc
          rcases List.mem_cons.mp hc with rfl | hc
          · exact hs
          · exact (List.mem_takeWhile_imp hc)

/-- Completeness of the anchored match: an occurrence at the head is found, with
its token and year. -/
theorem matchHere_complete (cs tok ws yr post : List Char)
    (h : Occurrence cs [] tok ws yr post) : matchHere cs = some (tok, yr) := by
  obtain ⟨hcs, hcase, hne, hws, hlen, hdig⟩ := h
  subst hcs
  cases ws with
  | nil => exact absurd rfl hne
  | cons s ws1 =>
    have hs : isJsSpace s = true := hws s (List.mem_cons_self _ _)
    have hws1 : ∀ c ∈ ws1, isJsSpace c = true := fun c hc => hws c (List.mem_cons_of_mem _ hc)
    have h1 : [] ++ tok ++ s :: ws1 ++ yr ++ post = tok ++ (s :: (ws1 ++ (yr ++ post))) := by simp
    rw [h1]
    unfold matchHere
    rw [matchToken_complete tok _ hcase]
    simp only [hs, if_true]
    rw [dropWhile_spaces ws1 _ hws1, dropWhile_year yr post hlen hdig,
      matchYear_complete yr post hlen hdig]


theorem badgeMatch_none (cs : List Char) (h : badgeMatch cs = none) :
    ∀ pre rest, cs = pre ++ rest → matchHere rest = none := by
  induction cs with
  | nil =>
    intro pre rest hsplit
    have hrest : rest = [] := by
      have := congrArg List.length hsplit
      simp only [List.length_nil, List.length_append] at this
      exact List.length_eq_zero.mp (by omega)
    subst hrest
    rfl
  | cons c cs ih =>
    intro pre rest hsplit
    simp only [badgeMatch] at h
    cases hm : matchHere (c :: cs) with
    | some m => simp [hm] at h
    | none =>
      simp only [hm] at h
      cases pre with
      | nil => simp only [List.nil_append] at hsplit; rw [← hsplit]; exact hm
      | cons p pre1 =>
        simp only [List.cons_append, List.cons.injEq] at hsplit
        exact ih h pre1 rest hsplit.2

theorem badgeMatch_leftmost (pre rest : List Char) (m : List Char × List Char)
    (hm : matchHere rest = some m)
    (hpre : ∀ pre1 rest1, pre ++ rest = pre1 ++ rest1 → pre1.length < pre.length →
      matchHere rest1 = none) :
    badgeMatch (pre ++ rest) = some m := by
  induction pre with
  | nil =>
    cases rest with
    | nil => simp [matchHere, matchToken] at hm
    | cons r rs => simp [badgeMatch, hm]
  | cons p pre1 ih =>
    have h0 : matchHere (p :: pre1 ++ rest) = none :=
      hpre [] (p :: pre1 ++ rest) (by simp) (by simp)
    simp only [List.cons_append] at h0 ⊢
    simp only [badgeMatch, h0]
    apply ih
    intro pre2 rest2 hsplit hlt
    exact hpre (p :: pre2) rest2 (by simp [hsplit]) (by simpa using hlt)

theorem badgeMatch_some (cs : List Char) (m : List Char × List Char)
    (h : badgeMatch cs = some m) :
    ∃ pre rest, cs = pre ++ rest ∧ matchHere rest = some m := by
  induction cs with
  | nil => simp [badgeMatch] at h
  | cons c cs ih =>
    simp only [badgeMatch] at h
    cases hm : matchHere (c :: cs) with
    | some m1 =>
      simp only [hm, Option.some.injEq] at h
      subst h
      exact ⟨[], c :: cs, rfl, hm⟩
    | none =>
      simp only [hm] at h
      obtain ⟨pre, rest, hsplit, hr⟩ := ih h
      exact ⟨c :: pre, rest, by simp [hsplit], hr⟩

theorem occurrence_shift (pre tok ws yr post : List Char)
    (h : Occurrence (pre ++ tok ++ ws ++ yr ++ post) pre tok ws yr post) :
    Occurrence (tok ++ ws ++ yr ++ post) [] tok ws yr post :=
  ⟨by simp, h.2⟩

theorem upper_token_ne_empty (tok : List Char)
    (h : tok.map upperChar = ['W', 'A', 'E', 'C'] ∨ tok.map upperChar = ['N', 'E', 'C', 'O'] ∨
      tok.map upperChar = ['J', 'A', 'M', 'B']) :
    toUpperCase (String.mk tok) ≠ "" ∧
    (toUpperCase (String.mk tok) = "WAEC" ∨ toUpperCase (String.mk tok) = "NECO" ∨
      toUpperCase (String.mk tok) = "JAMB") := by
  unfold toUpperCase
  rcases h with h | h | h <;> rw [h] <;> decide

theorem year_ne_empty (yr : List Char) (h : yr.length = 4) : String.mk yr ≠ "" := by
  intro hc
  have := congrArg String.length hc
  simp [h] at this

theorem parseBadge_of_match (badge : String) (tok yr : List Char)
    (hm : badgeMatch badge.data = some (tok, yr))
    (htok : tok.map upperChar = ['W', 'A', 'E', 'C'] ∨ tok.map upperChar = ['N', 'E', 'C', 'O'] ∨
      tok.map upperChar = ['J', 'A', 'M', 'B'])
    (hlen : yr.length = 4) :
    parseBadge badge = (toUpperCase (String.mk tok), String.mk yr) := by
  simp only [parseBadge, hm]
  rw [if_neg (upper_token_ne_empty tok htok).1, if_neg (year_ne_empty yr hlen)]

theorem parseBadge_cases (badge : String) :
    (∀ pre tok ws yr post, Occurrence badge.data pre tok ws yr post →
      (∀ pre1 tok1 ws1 yr1 post1, Occurrence badge.data pre1 tok1 ws1 yr1 post1 →
        pre.length ≤ pre1.length) →
      parseBadge badge = (toUpperCase (String.mk tok), String.mk yr)) ∧
    ((∃ pre tok ws yr post, Occurrence badge.data pre tok ws yr post) →
      ∃ pre tok ws yr post, Occurrence badge.data pre tok ws yr post ∧
        parseBadge badge = (toUpperCase (String.mk tok), String.mk yr)) ∧
    ((¬ ∃ pre tok ws yr post, Occurrence badge.data pre tok ws yr post) →
      parseBadge badge = ("WAEC", "Unknown")) ∧
    ((parseBadge badge).1 = "WAEC" ∨ (parseBadge badge).1 = "NECO" ∨
      (parseBadge badge).1 = "JAMB") ∧
    ((parseBadge badge).2 = "Unknown" ∨
      ((parseBadge badge).2.data.length = 4 ∧
        ∀ c ∈ (parseBadge badge).2.data, isJsDigit c = true)) := by
  have key : ∀ tok yr, badgeMatch badge.data = some (tok, yr) →
      ∃ pre ws post, Occurrence badge.data pre tok ws yr post := by
    intro tok yr hm
    obtain ⟨pre, rest, hsplit, hr⟩ := badgeMatch_some _ _ hm
    obtain ⟨ws, post, hocc⟩ := matchHere_some _ _ _ hr
    refine ⟨pre, ws, post, ?_, hocc.2⟩
    rw [hsplit, hocc.1]
    simp
  have hnone : badgeMatch badge.data = none →
      ¬ ∃ pre tok ws yr post, Occurrence badge.data pre tok ws yr post := by
    rintro hn ⟨pre, tok, ws, yr, post, hocc⟩
    have h1 := badgeMatch_none _ hn pre (tok ++ ws ++ yr ++ post) (by rw [hocc.1]; simp)
    have h2 := matchHere_complete (tok ++ ws ++ yr ++ post) tok ws yr post ⟨by simp, hocc.2⟩
    rw [h2] at h1
    exact Option.noConfusion h1
  refine ⟨?_, ?_, ?_, ?_, ?_⟩
  · intro pre tok ws yr post hocc hleft
    have hm : badgeMatch badge.data = some (tok, yr) := by
      have hsplit : badge.data = pre ++ (tok ++ ws ++ yr ++ post) := by rw [hocc.1]; simp
      rw [hsplit]
      apply badgeMatch_leftmost
      · exact matchHere_complete _ tok ws yr post ⟨by simp, hocc.2⟩
      · intro pre1 rest1 hs hlt
        cases hr : matchHere rest1 with
        | none => rfl
        | some m =>
          obtain ⟨tok1, yr1⟩ := m
          obtain ⟨ws1, post1, ho⟩ := matchHere_some _ _ _ hr
          have := hleft pre1 tok1 ws1 yr1 post1
            ⟨by rw [hsplit, hs, ho.1]; simp, ho.2⟩
          omega
    exact parseBadge_of_match badge tok yr hm hocc.2.1 hocc.2.2.2.2.1
  · intro _
    cases hm : badgeMatch badge.data with
    | none => exact absurd ‹_› (hnone hm)
    | some m =>
      obtain ⟨tok, yr⟩ := m
      obtain ⟨pre, ws, post, hocc⟩ := key tok yr hm
      exact ⟨pre, tok, ws, yr, post, hocc,
        parseBadge_of_match badge tok yr hm hocc.2.1 hocc.2.2.2.2.1⟩
  · intro hno
    cases hm : badgeMatch badge.data with
    | none => simp [parseBadge, hm]
    | some m =>
      obtain ⟨tok, yr⟩ := m
      obtain ⟨pre, ws, post, hocc⟩ := key tok yr hm
      exact absurd ⟨pre, tok, ws, yr, post, hocc⟩ hno
  · cases hm : badgeMatch badge.data with
    | none => simp [parseBadge, hm]
    | some m =>
      obtain ⟨tok, yr⟩ := m
      obtain ⟨pre, ws, post, hocc⟩ := key tok yr hm
      rw [parseBadge_of_match badge tok yr hm hocc.2.1 hocc.2.2.2.2.1]
      exact (upper_token_ne_empty tok hocc.2.1).2
  · cases hm : badgeMatch badge.data with
    | none => simp [parseBadge, hm]
    | some m =>
      obtain ⟨tok, yr⟩ := m
      obtain ⟨pre, ws, post, hocc⟩ := key tok yr hm
      rw [parseBadge_of_match badge tok yr hm hocc.2.1 hocc.2.2.2.2.1]
      exact Or.inr ⟨hocc.2.2.2.2.1, hocc.2.2.2.2.2⟩

/-- Claim C2: for every value `badge` of the badge text, if the leftmost place
where `badge` holds WAEC, NECO or JAMB (in any letter case), white space and four
digits has token `tok` and digits `yr`, then the exam type is `tok` in upper case
and the year is `yr`; if there is such a place at all, exam type and year come
from one; if there is none, they are `"WAEC"` and `"Unknown"`.  The exam type is
always WAEC, NECO or JAMB and the year is `"Unknown"` or four digits, and these
are the `examType` and `year` of the stub of a block with this badge text. -/
theorem parseBadge_spec (badge : String) :
    (∀ pre tok ws yr post, Occurrence badge.data pre tok ws yr post →
      (∀ pre1 tok1 ws1 yr1 post1, Occurrence badge.data pre1 tok1 ws1 yr1 post1 →
        pre.length ≤ pre1.length) →
      parseBadge badge = (toUpperCase (String.mk tok), String.mk yr)) ∧
    ((∃ pre tok ws yr post, Occurrence badge.data pre tok ws yr post) →
      ∃ pre tok ws yr post, Occurrence badge.data pre tok ws yr post ∧
        parseBadge badge = (toUpperCase (String.mk tok), String.mk yr)) ∧
    ((¬ ∃ pre tok ws yr post, Occurrence badge.data pre tok ws yr post) →
      parseBadge badge = ("WAEC", "Unknown")) ∧
    ((parseBadge badge).1 = "WAEC" ∨ (parseBadge badge).1 = "NECO" ∨
      (parseBadge badge).1 = "JAMB") ∧
    ((parseBadge badge).2 = "Unknown" ∨
      ((parseBadge badge).2.data.length = 4 ∧
        ∀ c ∈ (parseBadge badge).2.data, isJsDigit c = true)) ∧
    (∀ (question : String) (items : List OptionItem) (href : Option String) (raw : String),
      trim raw = badge →
      (extractStub (Block.mk question items href raw)).examType = (parseBadge badge).1 ∧
      (extractStub (Block.mk question items href raw)).year = (parseBadge badge).2) := by
  obtain ⟨h1, h2, h3, h4, h5⟩ := parseBadge_cases badge
  refine ⟨h1, h2, h3, h4, h5, ?_⟩
  intro question items href raw hraw
  simp only [extractStub, hraw, and_self]

/-! ### Observations and concatenation -/

@[simp] theorem events_append (a b : List Action) : events (a ++ b) = events a ++ events b := by
  induction a with
  | nil => rfl
  | cons x xs ih => cases x <;> simp [events, ih]

@[simp] theorem fetched_append (a b : List Action) :
    fetched (a ++ b) = fetched a ++ fetched b := by
  induction a with
  | nil => rfl
  | cons x xs ih => cases x <;> simp [fetched, ih]

@[simp] theorem cycles_append (a b : List Action) : cycles (a ++ b) = cycles a ++ cycles b := by
  induction a with
  | nil => rfl
  | cons x xs ih => cases x <;> simp [cycles, ih]

@[simp] theorem creates_append (a b : List Action) :
    creates (a ++ b) = creates a ++ creates b := by
  induction a with
  | nil => rfl
  | cons x xs ih => cases x <;> simp [creates, ih]

@[simp] theorem closeCount_append (a b : List Action) :
    closeCount (a ++ b) = closeCount a + closeCount b := by
  induction a with
  | nil => simp [closeCount]
  | cons x xs ih =>
    cases x with
    | close => simp [closeCount, ih]; omega
    | _ => simp [closeCount, ih]

@[simp] theorem savedCount_append (a b : List Action) :
    savedCount (a ++ b) = savedCount a + savedCount b := by
  simp [savedCount]

@[simp] theorem totals_append (a b : List Action) : totals (a ++ b) = totals a ++ totals b := by
  simp [totals]

@[simp] theorem events_emit (c : Bool) (ev : ProgressEvent) :
    events (emit c ev) = if c then [ev] else [] := by
  cases c <;> rfl

@[simp] theorem fetched_emit (c : Bool) (ev : ProgressEvent) : fetched (emit c ev) = [] := by
  cases c <;> rfl

@[simp] theorem cycles_emit (c : Bool) (ev : ProgressEvent) : cycles (emit c ev) = [] := by
  cases c <;> rfl

@[simp] theorem creates_emit (c : Bool) (ev : ProgressEvent) : creates (emit c ev) = [] := by
  cases c <;> rfl

@[simp] theorem closeCount_emit (c : Bool) (ev : ProgressEvent) :
    closeCount (emit c ev) = 0 := by
  cases c <;> rfl

@[simp] theorem savedCount_emit (c : Bool) (ev : ProgressEvent) :
    savedCount (emit c ev) = 0 := by
  simp [savedCount]

/-! ### The events of a crawl, told apart -/

theorem startsWith_append_self (p m : String) : startsWith (p ++ m) p = true := by
  simp [startsWith, String.data_append]

theorem detailWarning_kind (qt m : String) (t : Nat) :
    isDetailWarning (detailWarning m t) = true ∧ isEmptyWarning qt (detailWarning m t) = false ∧
    isSaveError (detailWarning m t) = false ∧ isFetchError (detailWarning m t) = false := by
  refine ⟨?_, ?_, by simp [isSaveError, detailWarning], by simp [isFetchError, detailWarning]⟩
  · simp [isDetailWarning, detailWarning, startsWith_append_self]
  · simp only [isEmptyWarning, detailWarning, Bool.and_eq_false_iff, decide_eq_false_iff_not]
    right
    intro h
    have := congrArg String.data h
    simp [String.data_append] at this

theorem emptyWarning_kind (qt : String) (t : Nat) :
    isEmptyWarning qt (emptyWarning qt t) = true ∧ isDetailWarning (emptyWarning qt t) = false ∧
    isSaveError (emptyWarning qt t) = false ∧ isFetchError (emptyWarning qt t) = false := by
  refine ⟨by simp [isEmptyWarning, emptyWarning], ?_, by simp [isSaveError, emptyWarning],
    by simp [isFetchError, emptyWarning]⟩
  simp [isDetailWarning, emptyWarning, startsWith, String.data_append, List.isPrefixOf]

theorem saveError_kind (qt m : String) (t : Nat) :
    isSaveError (saveError m t) = true ∧ isFetchError (saveError m t) = false ∧
    isDetailWarning (saveError m t) = false ∧ isEmptyWarning qt (saveError m t) = false := by
  refine ⟨?_, ?_, by simp [isDetailWarning, saveError], by simp [isEmptyWarning, saveError]⟩
  · simp [isSaveError, saveError, startsWith_append_self]
  · simp [isFetchError, saveError, startsWith, String.data_append, List.isPrefixOf]

theorem fetchError_kind (qt m : String) (p t : Nat) :
    isFetchError (fetchError p m t) = true ∧ isSaveError (fetchError p m t) = false ∧
    isDetailWarning (fetchError p m t) = false ∧ isEmptyWarning qt (fetchError p m t) = false := by
  refine ⟨?_, ?_, by simp [isDetailWarning, fetchError], by simp [isEmptyWarning, fetchError]⟩
  · simp [isFetchError, fetchError, startsWith, String.data_append]
  · simp [isSaveError, fetchError, startsWith, String.data_append, List.isPrefixOf]

@[simp] theorem countEvents_append (f : ProgressEvent → Bool) (a b : List Action) :
    countEvents f (a ++ b) = countEvents f a + countEvents f b := by
  simp [countEvents]

theorem countEvents_emit (f : ProgressEvent → Bool) (c : Bool) (ev : ProgressEvent) :
    countEvents f (emit c ev) = if c && f ev then 1 else 0 := by
  cases c <;> cases h : f ev <;> simp [countEvents, emit, events, h]

theorem counted_append (a b : List Action) :
    ∀ t, counted t (a ++ b) ↔ counted t a ∧ counted (t + savedCount a) b := by
  induction a with
  | nil => intro t; simp [counted, savedCount, creates]
  | cons x xs ih =>
    intro t
    cases x with
    | create doc ok =>
      cases ok
      · simp [counted, savedCount, creates, ih]
      · have hs : savedCount (Action.create doc true :: xs) = savedCount xs + 1 := by
          simp [savedCount, creates]
        simp only [List.cons_append, counted, hs]
        have h1 := ih (t + 1)
        rw [show t + 1 + savedCount xs = t + (savedCount xs + 1) by omega] at h1
        exact h1
    | write ev => simp [counted, savedCount, creates, ih, and_assoc]
    | _ => simp [counted, savedCount, creates, ih]

theorem counted_emit (c : Bool) (ev : ProgressEvent) (t : Nat) (h : ev.totalScraped = some t) :
    counted t (emit c ev) := by
  cases c <;> simp [emit, counted, h]

/-! ### One stub: enrichment and save -/

theorem enrich_values (c : Bool) (t : Nat) (q : QuestionStub) (r : DetailResponses) :
    (enrich c t q r).2 = (enrich false 0 q r).2 := by
  rcases r with ⟨g, w, h, e⟩
  cases g <;> cases w <;> cases h <;> cases e <;> rfl

theorem enrich_obs (c : Bool) (t : Nat) (q : QuestionStub) (r : DetailResponses) :
    fetched (enrich c t q r).1 = [] ∧ creates (enrich c t q r).1 = [] ∧
    cycles (enrich c t q r).1 = [Action.goto q.detailLink r.goto.isOk] ∧
    closeCount (enrich c t q r).1 = 0 ∧ savedCount (enrich c t q r).1 = 0 := by
  rcases r with ⟨g, w, h, e⟩
  cases g <;> cases w <;> cases h <;> cases e <;>
    simp [enrich, fetched, creates, cycles, closeCount, savedCount, Outcome.isOk]

theorem enrich_counted (c : Bool) (t : Nat) (q : QuestionStub) (r : DetailResponses) :
    counted t (enrich c t q r).1 := by
  rcases r with ⟨g, w, h, e⟩
  cases g <;> cases w <;> cases h <;> cases e <;> cases c <;>
    simp [enrich, emit, counted, visitingEvent, detailWarning, successEvent]

theorem enrich_crawlAction (c : Bool) (t : Nat) (q : QuestionStub) (r : DetailResponses) :
    ∀ a ∈ (enrich c t q r).1, crawlAction a = true := by
  rcases r with ⟨g, w, h, e⟩
  cases g <;> cases w <;> cases h <;> cases e <;> cases c <;>
    simp [enrich, emit, crawlAction, visitingEvent, detailWarning, successEvent]

theorem visiting_kind (qt : String) (q : QuestionStub) (t : Nat) :
    isDetailWarning (visitingEvent q t) = false ∧ isEmptyWarning qt (visitingEvent q t) = false ∧
    isSaveError (visitingEvent q t) = false ∧ isFetchError (visitingEvent q t) = false := by
  simp [isDetailWarning, isEmptyWarning, isSaveError, isFetchError, visitingEvent]

theorem success_kind (qt : String) (t : Nat) :
    isDetailWarning (successEvent t) = false ∧ isEmptyWarning qt (successEvent t) = false ∧
    isSaveError (successEvent t) = false ∧ isFetchError (successEvent t) = false := by
  simp [isDetailWarning, isEmptyWarning, isSaveError, isFetchError, successEvent]

theorem saved_kind (qt : String) (t : Nat) :
    isDetailWarning (savedEvent t) = false ∧ isEmptyWarning qt (savedEvent t) = false ∧
    isSaveError (savedEvent t) = false ∧ isFetchError (savedEvent t) = false := by
  simp [isDetailWarning, isEmptyWarning, isSaveError, isFetchError, savedEvent]

theorem page_kind (qt qt1 : String) (p t : Nat) :
    isDetailWarning (pageEvent qt1 p t) = false ∧ isEmptyWarning qt (pageEvent qt1 p t) = false ∧
    isSaveError (pageEvent qt1 p t) = false ∧ isFetchError (pageEvent qt1 p t) = false := by
  simp [isDetailWarning, isEmptyWarning, isSaveError, isFetchError, pageEvent]

theorem enrich_counts (qt : String) (c : Bool) (t : Nat) (q : QuestionStub)
    (r : DetailResponses) :
    countEvents isDetailWarning (enrich c t q r).1 = (if c && detailFails r then 1 else 0) ∧
    countEvents (isEmptyWarning qt) (enrich c t q r).1 = 0 ∧
    countEvents isSaveError (enrich c t q r).1 = 0 ∧
    countEvents isFetchError (enrich c t q r).1 = 0 := by
  have hv := visiting_kind qt q t
  have hs := success_kind qt t
  rcases r with ⟨g, w, h, e⟩
  cases g <;> cases w <;> cases h <;> cases e <;> cases c <;>
    simp [enrich, emit, countEvents, events, detailFails, Outcome.isOk, hv, hs,
      detailWarning_kind qt]

theorem save_obs (c : Bool) (t : Nat) (doc : EnrichedQuestion) (r : Outcome Unit) :
    fetched (save c t doc r).1 = [] ∧ creates (save c t doc r).1 = [(doc, r.isOk)] ∧
    cycles (save c t doc r).1 = [Action.create doc r.isOk] ∧
    closeCount (save c t doc r).1 = 0 ∧
    savedCount (save c t doc r).1 = (if r.isOk then 1 else 0) ∧
    (save c t doc r).2 = t + (if r.isOk then 1 else 0) := by
  cases r <;> cases c <;>
    simp [save, emit, fetched, creates, cycles, closeCount, savedCount, Outcome.isOk]

theorem save_counted (c : Bool) (t : Nat) (doc : EnrichedQuestion) (r : Outcome Unit) :
    counted t (save c t doc r).1 := by
  cases r <;> cases c <;> simp [save, emit, counted, savedEvent, saveError]

theorem save_crawlAction (c : Bool) (t : Nat) (doc : EnrichedQuestion) (r : Outcome Unit) :
    ∀ a ∈ (save c t doc r).1, crawlAction a = true := by
  cases r <;> cases c <;> simp [save, emit, crawlAction, savedEvent, saveError]

theorem save_counts (qt : String) (c : Bool) (t : Nat) (doc : EnrichedQuestion)
    (r : Outcome Unit) :
    countEvents isDetailWarning (save c t doc r).1 = 0 ∧
    countEvents (isEmptyWarning qt) (save c t doc r).1 = 0 ∧
    countEvents isSaveError (save c t doc r).1 = (if c && !r.isOk then 1 else 0) ∧
    countEvents isFetchError (save c t doc r).1 = 0 := by
  cases r with
  | threw m =>
    have hk := saveError_kind qt m t
    cases c <;> simp [save, emit, countEvents, events, Outcome.isOk, hk]
  | ok v =>
    have hk := saved_kind qt (t + 1)
    cases c <;> simp [save, emit, countEvents, events, Outcome.isOk, hk]

/-! ### The stubs of one page -/

theorem processStubs_cons (c : Bool) (qt sn : String) (t : Nat) (b : BlockRun)
    (bs : List BlockRun) :
    processStubs c qt sn t (b :: bs) =
      ((enrich c t (extractStub b.block) b.detail).1
        ++ (save c t (recordOf qt sn b) b.create).1
        ++ (processStubs c qt sn (save c t (recordOf qt sn b) b.create).2 bs).1,
       (processStubs c qt sn (save c t (recordOf qt sn b) b.create).2 bs).2) := by
  simp only [processStubs, recordOf]
  rw [enrich_values c t]

theorem processStubs_obs (c : Bool) (qt sn : String) (bs : List BlockRun) :
    ∀ t, fetched (processStubs c qt sn t bs).1 = [] ∧
      creates (processStubs c qt sn t bs).1
        = bs.map (fun b => (recordOf qt sn b, b.create.isOk)) ∧
      cycles (processStubs c qt sn t bs).1
        = (bs.map (fun b => [Action.goto (extractStub b.block).detailLink b.detail.goto.isOk,
            Action.create (recordOf qt sn b) b.create.isOk])).flatten ∧
      closeCount (processStubs c qt sn t bs).1 = 0 ∧
      (processStubs c qt sn t bs).2 = t + savedCount (processStubs c qt sn t bs).1 ∧
      counted t (processStubs c qt sn t bs).1 ∧
      (∀ a ∈ (processStubs c qt sn t bs).1, crawlAction a = true) := by
  induction bs with
  | nil =>
    intro t
    simp [processStubs, fetched, creates, cycles, closeCount, savedCount, counted]
  | cons b bs ih =>
    intro t
    rw [processStubs_cons]
    have he := enrich_obs c t (extractStub b.block) b.detail
    have hs := save_obs c t (recordOf qt sn b) b.create
    obtain ⟨i1, i2, i3, i4, i5, i6, i7⟩ := ih (save c t (recordOf qt sn b) b.create).2
    refine ⟨?_, ?_, ?_, ?_, ?_, ?_, ?_⟩
    · simp [he.1, hs.1, i1]
    · simp [he.2.1, hs.2.1, i2]
    · simp [he.2.2.1, hs.2.2.1, i3]
    · simp [he.2.2.2.1, hs.2.2.2.1, i4]
    · simp only [savedCount_append, he.2.2.2.2, hs.2.2.2.2.1]
      rw [i5, hs.2.2.2.2.2]
      omega
    · rw [counted_append, counted_append]
      refine ⟨⟨enrich_counted _ _ _ _, ?_⟩, ?_⟩
      · rw [he.2.2.2.2]; exact save_counted _ _ _ _
      · have h2 : (save c t (recordOf qt sn b) b.create).2
            = t + (savedCount (enrich c t (extractStub b.block) b.detail).1
              + savedCount (save c t (recordOf qt sn b) b.create).1) := by
          rw [he.2.2.2.2, hs.2.2.2.2.1, hs.2.2.2.2.2]; omega
        rw [savedCount_append, ← h2]
        exact i6
    · intro a ha
      simp only [List.mem_append] at ha
      rcases ha with (ha | ha) | ha
      · exact enrich_crawlAction _ _ _ _ a ha
      · exact save_crawlAction _ _ _ _ a ha
      · exact i7 a ha

theorem processStubs_counts (qt1 : String) (c : Bool) (qt sn : String) (bs : List BlockRun) :
    ∀ t, countEvents isDetailWarning (processStubs c qt sn t bs).1
        = (if c then (bs.filter (fun b => detailFails b.detail)).length else 0) ∧
      countEvents (isEmptyWarning qt1) (processStubs c qt sn t bs).1 = 0 ∧
      countEvents isSaveError (processStubs c qt sn t bs).1
        = (if c then (bs.filter (fun b => !b.create.isOk)).length else 0) ∧
      countEvents isFetchError (processStubs c qt sn t bs).1 = 0 := by
  induction bs with
  | nil => intro t; simp [processStubs, countEvents, events]
  | cons b bs ih =>
    intro t
    rw [processStubs_cons]
    have he := enrich_counts qt1 c t (extractStub b.block) b.detail
    have hs := save_counts qt1 c t (recordOf qt sn b) b.create
    obtain ⟨i1, i2, i3, i4⟩ := ih (save c t (recordOf qt sn b) b.create).2
    simp only [countEvents_append, he, hs, i1, i2, i3, i4]
    cases c <;> cases hd : detailFails b.detail <;> cases hc : b.create.isOk <;>
      simp [List.filter_cons, hd, hc] <;> omega

/-! ### The loop over the pages -/

theorem isStop_false (o : Outcome PageData) (h : isStop o = false) :
    ∃ b bs, o = Outcome.ok (PageData.markup (b :: bs)) := by
  cases o with
  | threw m => simp [isStop] at h
  | ok data =>
    cases data with
    | unloadable m => simp [isStop] at h
    | markup l =>
      cases l with
      | nil => simp [isStop] at h
      | cons b bs => exact ⟨b, bs, rfl⟩

theorem isEnd_isStop (o : Outcome PageData) (h : isEnd o = true) : isStop o = true := by
  cases o with
  | threw m => rfl
  | ok data =>
    cases data with
    | unloadable m => simp [isEnd] at h
    | markup l =>
      cases l with
      | nil => rfl
      | cons b bs => simp [isEnd] at h

theorem stopResult_isEnd (t : Nat) (o : Outcome PageData) (h : isEnd o = true) :
    stopResult t o = CrawlResult.returned t := by
  cases o with
  | threw m => rfl
  | ok data =>
    cases data with
    | unloadable m => simp [isEnd] at h
    | markup l => rfl

theorem stopResult_returned (t n : Nat) (o : Outcome PageData) (hstop : isStop o = true)
    (h : stopResult t o = CrawlResult.returned n) : isEnd o = true ∧ n = t := by
  cases o with
  | threw m => exact ⟨rfl, (CrawlResult.returned.inj h).symm⟩
  | ok data =>
    cases data with
    | unloadable m => simp [stopResult] at h
    | markup l =>
      cases l with
      | nil => exact ⟨rfl, (CrawlResult.returned.inj h).symm⟩
      | cons b bs => simp [isStop] at hstop

theorem crawlLoop_stop (site : Site) (c : Bool) (qt sn ss : String) :
    ∀ d p t fuel, (∀ i, i < d → isStop (site (p + i)) = false) →
      isStop (site (p + d)) = true → d < fuel →
      crawlLoop site c qt sn ss fuel p t =
        ((pagesLog site c qt sn ss d p t).1
          ++ stopLog c qt ss (p + d) (pagesLog site c qt sn ss d p t).2 (site (p + d)),
         stopResult (pagesLog site c qt sn ss d p t).2 (site (p + d))) := by
  intro d
  induction d with
  | zero =>
    intro p t fuel _ hstop hfuel
    obtain ⟨f, rfl⟩ : ∃ f, fuel = f + 1 := ⟨fuel - 1, by omega⟩
    simp only [Nat.add_zero] at hstop ⊢
    cases hs : site p with
    | threw m => simp [crawlLoop, hs, pagesLog, stopLog, stopResult]
    | ok data =>
      cases data with
      | unloadable m => simp [crawlLoop, hs, pagesLog, stopLog, stopResult]
      | markup l =>
        cases l with
        | nil => simp [crawlLoop, hs, pagesLog, stopLog, stopResult]
        | cons b bs => simp [hs, isStop] at hstop
  | succ d ih =>
    intro p t fuel hbefore hstop hfuel
    obtain ⟨f, rfl⟩ : ∃ f, fuel = f + 1 := ⟨fuel - 1, by omega⟩
    obtain ⟨b, bs, hs⟩ := isStop_false _ (by simpa using hbefore 0 (by omega))
    have hidx : p + 1 + d = p + (d + 1) := by omega
    have hrec := ih (p + 1) (processStubs c qt sn t (b :: bs)).2 f
      (fun i hi => by
        have := hbefore (i + 1) (by omega)
        rwa [show p + (i + 1) = p + 1 + i by omega] at this)
      (by rw [hidx]; exact hstop) (by omega)
    rw [hidx] at hrec
    simp only [crawlLoop, hs, pagesLog, pageBlocks, hrec, List.append_assoc]

theorem pagesLog_obs (site : Site) (c : Bool) (qt sn ss : String) :
    ∀ d p t, fetched (pagesLog site c qt sn ss d p t).1
        = (List.range d).map (fun i => pageUrl ss qt (p + i)) ∧
      creates (pagesLog site c qt sn ss d p t).1
        = (blocksFrom site p d).map (fun b => (recordOf qt sn b, b.create.isOk)) ∧
      cycles (pagesLog site c qt sn ss d p t).1
        = ((blocksFrom site p d).map
            (fun b => [Action.goto (extractStub b.block).detailLink b.detail.goto.isOk,
              Action.create (recordOf qt sn b) b.create.isOk])).flatten ∧
      closeCount (pagesLog site c qt sn ss d p t).1 = 0 ∧
      (pagesLog site c qt sn ss d p t).2 = t + savedCount (pagesLog site c qt sn ss d p t).1 ∧
      counted t (pagesLog site c qt sn ss d p t).1 ∧
      (∀ a ∈ (pagesLog site c qt sn ss d p t).1, crawlAction a = true) := by
  intro d
  induction d with
  | zero =>
    intro p t
    simp [pagesLog, blocksFrom, fetched, creates, cycles, closeCount, savedCount, counted]
  | succ d ih =>
    intro p t
    obtain ⟨s1, s2, s3, s4, s5, s6, s7⟩ := processStubs_obs c qt sn (pageBlocks site p) t
    obtain ⟨i1, i2, i3, i4, i5, i6, i7⟩ :=
      ih (p + 1) (processStubs c qt sn t (pageBlocks site p)).2
    simp only [pagesLog, blocksFrom]
    refine ⟨?_, ?_, ?_, ?_, ?_, ?_, ?_⟩
    · simp only [fetched_append, fetched_emit, s1, i1, fetched, List.nil_append,
        List.append_nil, List.singleton_append, List.range_succ_eq_map, List.map_cons,
        List.map_map, Nat.add_zero, List.cons.injEq, true_and]
      apply List.map_congr_left
      intro i _
      simp only [Function.comp_apply]
      rw [show p + 1 + i = p + (i + 1) by omega]
    · simp [creates, s2, i2]
    · simp [cycles, s3, i3]
    · simp [closeCount, s4, i4]
    · rw [i5, s5]
      simp only [savedCount_append, savedCount_emit]
      simp [savedCount, creates]
      omega
    · rw [counted_append, counted_append, counted_append]
      refine ⟨⟨⟨counted_emit _ _ _ rfl, ?_⟩, ?_⟩, ?_⟩
      · simp [counted]
      · simpa [savedCount, creates] using s6
      · have h2 : (processStubs c qt sn t (pageBlocks site p)).2
            = t + savedCount (emit c (pageEvent qt p t)
                ++ [Action.get (pageUrl ss qt p) true]
                ++ (processStubs c qt sn t (pageBlocks site p)).1) := by
          rw [s5]
          simp [savedCount, creates]
        rw [← h2]
        exact i6
    · intro a ha
      simp only [List.mem_append, List.mem_singleton] at ha
      rcases ha with ((ha | ha) | ha) | ha
      · cases c <;> simp [emit] at ha
        subst ha
        simp [crawlAction, pageEvent]
      · subst ha; rfl
      · exact s7 a ha
      · exact i7 a ha

theorem pagesLog_counts (qt1 : String) (site : Site) (c : Bool) (qt sn ss : String) :
    ∀ d p t, countEvents isDetailWarning (pagesLog site c qt sn ss d p t).1
        = (if c then ((blocksFrom site p d).filter (fun b => detailFails b.detail)).length
            else 0) ∧
      countEvents (isEmptyWarning qt1) (pagesLog site c qt sn ss d p t).1 = 0 ∧
      countEvents isSaveError (pagesLog site c qt sn ss d p t).1
        = (if c then ((blocksFrom site p d).filter (fun b => !b.create.isOk)).length else 0) ∧
      countEvents isFetchError (pagesLog site c qt sn ss d p t).1 = 0 := by
  intro d
  induction d with
  | zero => intro p t; simp [pagesLog, blocksFrom, countEvents, events]
  | succ d ih =>
    intro p t
    obtain ⟨s1, s2, s3, s4⟩ := processStubs_counts qt1 c qt sn (pageBlocks site p) t
    obtain ⟨i1, i2, i3, i4⟩ := ih (p + 1) (processStubs c qt sn t (pageBlocks site p)).2
    have hp := page_kind qt1 qt p t
    have hg : ∀ f, countEvents f [Action.get (pageUrl ss qt p) true] = 0 := by
      intro f; simp [countEvents, events]
    simp only [pagesLog, blocksFrom, countEvents_append, countEvents_emit, hp, hg, s1, s2, s3,
      s4, i1, i2, i3, i4, List.filter_append, List.length_append]
    cases c <;> simp

theorem stopLog_obs (c : Bool) (qt ss : String) (p t : Nat) (o : Outcome PageData) :
    fetched (stopLog c qt ss p t o) = [pageUrl ss qt p] ∧
    creates (stopLog c qt ss p t o) = [] ∧ cycles (stopLog c qt ss p t o) = [] ∧
    closeCount (stopLog c qt ss p t o) = 0 ∧ savedCount (stopLog c qt ss p t o) = 0 ∧
    counted t (stopLog c qt ss p t o) ∧
    (∀ a ∈ stopLog c qt ss p t o, crawlAction a = true) := by
  rcases o with m | data
  · cases c <;>
      simp [stopLog, emit, fetched, creates, cycles, closeCount, savedCount, counted,
        crawlAction, pageEvent, fetchError, emptyWarning]
  · cases data <;> cases c <;>
      simp [stopLog, emit, fetched, creates, cycles, closeCount, savedCount, counted,
        crawlAction, pageEvent, fetchError, emptyWarning]

theorem stopLog_counts (c : Bool) (qt ss : String) (p t : Nat)
    (o : Outcome PageData) :
    countEvents isDetailWarning (stopLog c qt ss p t o) = 0 ∧
    countEvents (isEmptyWarning qt) (stopLog c qt ss p t o)
      = (if c && isMarkup o then 1 else 0) ∧
    countEvents isSaveError (stopLog c qt ss p t o) = 0 ∧
    countEvents isFetchError (stopLog c qt ss p t o) = (if c && !o.isOk then 1 else 0) := by
  have hp := page_kind qt qt p t
  have hg : ∀ f b, countEvents f [Action.get (pageUrl ss qt p) b] = 0 := by
    intro f b; simp [countEvents, events]
  cases o with
  | threw m =>
    have hk := fetchError_kind qt m p t
    simp only [stopLog, countEvents_append, countEvents_emit, hp, hg, hk, Outcome.isOk,
      isMarkup]
    cases c <;> simp
  | ok data =>
    cases data with
    | unloadable m =>
      simp only [stopLog, countEvents_append, countEvents_emit, hp, hg, Outcome.isOk, isMarkup]
      cases c <;> simp
    | markup l =>
      have hk := emptyWarning_kind qt t
      simp only [stopLog, countEvents_append, countEvents_emit, hp, hg, hk, Outcome.isOk,
        isMarkup]
      cases c <;> simp

theorem crawlLoop_running (site : Site) (c : Bool) (qt sn ss : String) :
    ∀ fuel p t, (∀ i, i < fuel → isStop (site (p + i)) = false) →
      crawlLoop site c qt sn ss fuel p t
        = ((pagesLog site c qt sn ss fuel p t).1, CrawlResult.running) := by
  intro fuel
  induction fuel with
  | zero => intro p t _; rfl
  | succ f ih =>
    intro p t hrun
    obtain ⟨b, bs, hs⟩ := isStop_false _ (by simpa using hrun 0 (by omega))
    have hrec := ih (p + 1) (processStubs c qt sn t (b :: bs)).2
      (fun i hi => by
        have := hrun (i + 1) (by omega)
        rwa [show p + (i + 1) = p + 1 + i by omega] at this)
    simp only [crawlLoop, hs, pagesLog, pageBlocks, hrec, List.append_assoc]

/-- Normal form of a crawl: some number `d` of non-empty pages, and then either
the fuel is used up or the next page ends the pagination. -/
theorem crawlLoop_normal (site : Site) (c : Bool) (qt sn ss : String) (fuel p t : Nat) :
    ∃ d, d ≤ fuel ∧ (∀ i, i < d → isStop (site (p + i)) = false) ∧
      ((d = fuel ∧
          crawlLoop site c qt sn ss fuel p t
            = ((pagesLog site c qt sn ss d p t).1, CrawlResult.running)) ∨
       (d < fuel ∧ isStop (site (p + d)) = true ∧
          crawlLoop site c qt sn ss fuel p t =
            ((pagesLog site c qt sn ss d p t).1
              ++ stopLog c qt ss (p + d) (pagesLog site c qt sn ss d p t).2 (site (p + d)),
             stopResult (pagesLog site c qt sn ss d p t).2 (site (p + d))))) := by
  by_cases hex : ∃ d, d < fuel ∧ isStop (site (p + d)) = true
  · classical
    have hmin : ∀ i, i < Nat.find hex → ¬ (i < fuel ∧ isStop (site (p + i)) = true) :=
      fun i hi => Nat.find_min hex hi
    obtain ⟨hlt, hstop⟩ := Nat.find_spec hex
    have hbefore : ∀ i, i < Nat.find hex → isStop (site (p + i)) = false := by
      intro i hi
      have := hmin i hi
      simp only [not_and, Bool.not_eq_true] at this
      exact this (by omega)
    exact ⟨Nat.find hex, by omega, hbefore,
      Or.inr ⟨hlt, hstop, crawlLoop_stop site c qt sn ss _ p t fuel hbefore hstop hlt⟩⟩
  · have hrun : ∀ i, i < fuel → isStop (site (p + i)) = false := by
      intro i hi
      cases h : isStop (site (p + i)) with
      | false => rfl
      | true => exact absurd ⟨i, hi, h⟩ hex
    exact ⟨fuel, le_refl _, hrun, Or.inl ⟨rfl, crawlLoop_running site c qt sn ss fuel p t hrun⟩⟩

/-- A crawl that returns went through some non-empty pages and then met a page
that ends the pagination. -/
theorem crawlLoop_returned (site : Site) (c : Bool) (qt sn ss : String) (fuel p t n : Nat)
    (h : (crawlLoop site c qt sn ss fuel p t).2 = CrawlResult.returned n) :
    ∃ d, d < fuel ∧ (∀ i, i < d → isStop (site (p + i)) = false) ∧
      isEnd (site (p + d)) = true ∧
      n = (pagesLog site c qt sn ss d p t).2 ∧
      crawlLoop site c qt sn ss fuel p t =
        ((pagesLog site c qt sn ss d p t).1
          ++ stopLog c qt ss (p + d) (pagesLog site c qt sn ss d p t).2 (site (p + d)),
         CrawlResult.returned (pagesLog site c qt sn ss d p t).2) := by
  obtain ⟨d, _, hbefore, hcase⟩ := crawlLoop_normal site c qt sn ss fuel p t
  rcases hcase with ⟨_, heq⟩ | ⟨hlt, hstop, heq⟩
  · rw [heq] at h; exact CrawlResult.noConfusion h
  · rw [heq] at h
    obtain ⟨hend, hn⟩ := stopResult_returned _ n _ hstop h
    refine ⟨d, hlt, hbefore, hend, hn, ?_⟩
    rw [heq, stopResult_isEnd _ _ hend]

/-- Every step of a crawl is a crawl step, and every event of a crawl carries the
number of saves that succeeded before it in that crawl. -/
theorem crawlLoop_invariant (site : Site) (c : Bool) (qt sn ss : String) (fuel p t : Nat) :
    counted t (crawlLoop site c qt sn ss fuel p t).1 ∧
    (∀ a ∈ (crawlLoop site c qt sn ss fuel p t).1, crawlAction a = true) ∧
    closeCount (crawlLoop site c qt sn ss fuel p t).1 = 0 ∧
    (∀ n, (crawlLoop site c qt sn ss fuel p t).2 = CrawlResult.returned n →
      n = t + savedCount (crawlLoop site c qt sn ss fuel p t).1) := by
  obtain ⟨d, _, _, hcase⟩ := crawlLoop_normal site c qt sn ss fuel p t
  obtain ⟨_, _, _, i4, i5, i6, i7⟩ := pagesLog_obs site c qt sn ss d p t
  rcases hcase with ⟨_, heq⟩ | ⟨_, hstop, heq⟩
  · rw [heq]
    exact ⟨i6, i7, i4, fun n h => CrawlResult.noConfusion h⟩
  · obtain ⟨_, _, _, s4, s5, s6, s7⟩ :=
      stopLog_obs c qt ss (p + d) (pagesLog site c qt sn ss d p t).2 (site (p + d))
    rw [heq]
    refine ⟨?_, ?_, ?_, ?_⟩
    · rw [counted_append, ← i5]
      exact ⟨i6, s6⟩
    · intro a ha
      rcases List.mem_append.mp ha with ha | ha
      · exact i7 a ha
      · exact s7 a ha
    · simp [i4, s4]
    · intro n h
      simp only [savedCount_append, s5, Nat.add_zero]
      rw [← i5]
      exact (stopResult_returned _ n _ hstop h).2

/-! ### The category crawl -/

theorem scrape_stop (site : Site) (c : Bool) (qt sn ss : String) (k fuel : Nat)
    (hpages : ∀ p, 1 ≤ p → p ≤ k → ∃ b bs, site p = Outcome.ok (PageData.markup (b :: bs)))
    (hstop : isStop (site (k + 1)) = true) (hfuel : k + 1 ≤ fuel) :
    scrapeByQuestionType site c qt sn ss fuel =
      ((pagesLog site c qt sn ss k 1 0).1
        ++ stopLog c qt ss (k + 1) (pagesLog site c qt sn ss k 1 0).2 (site (k + 1)),
       stopResult (pagesLog site c qt sn ss k 1 0).2 (site (k + 1))) := by
  have h := crawlLoop_stop site c qt sn ss k 1 0 fuel
    (fun i hi => by
      obtain ⟨b, bs, hs⟩ := hpages (1 + i) (by omega) (by omega)
      rw [hs]; rfl)
    (by rw [Nat.add_comm 1 k]; exact hstop) (by omega)
  rw [Nat.add_comm 1 k] at h
  exact h

theorem urls_upTo (ss qt : String) (k : Nat) :
    (List.range k).map (fun i => pageUrl ss qt (1 + i)) ++ [pageUrl ss qt (k + 1)]
      = (List.range (k + 1)).map (fun i => pageUrl ss qt (i + 1)) := by
  rw [List.range_succ, List.map_append]
  congr 1
  apply List.map_congr_left
  intro i _
  rw [Nat.add_comm]

theorem savedCount_creates (log : List Action) (bs : List BlockRun) (f : BlockRun → EnrichedQuestion)
    (h : creates log = bs.map (fun b => (f b, b.create.isOk))) :
    savedCount log = (bs.filter (fun b => b.create.isOk)).length := by
  unfold savedCount
  rw [h, List.filter_map, List.length_map]
  rfl

/-- Claim C3: when pages `1 .. k` of a category each fetch successfully with at
least one question block and page `k + 1` fetches successfully with none, the
crawl (with fuel for `k + 1` iterations or more) fetches exactly the urls of
pages `1, 2, .., k + 1` in that order, runs one detail navigation followed by one
save per stub of pages `1 .. k`, in page order and listing order (so as many saves
as stubs), writes one warning for the empty page when a channel is there, as its
last step, and returns the number of saves that succeeded. -/
theorem crawl_stops_at_empty_page (site : Site) (client : Bool)
    (questionType subjectName subjectSlug : String) (k fuel : Nat)
    (hpages : ∀ p, 1 ≤ p → p ≤ k → ∃ b bs, site p = Outcome.ok (PageData.markup (b :: bs)))
    (hempty : site (k + 1) = Outcome.ok (PageData.markup []))
    (hfuel : k + 1 ≤ fuel) :
    fetched (scrapeByQuestionType site client questionType subjectName subjectSlug fuel).1
      = (List.range (k + 1)).map (fun i => pageUrl subjectSlug questionType (i + 1)) ∧
    cycles (scrapeByQuestionType site client questionType subjectName subjectSlug fuel).1
      = ((blocksUpTo site k).map (fun b =>
          [Action.goto (extractStub b.block).detailLink b.detail.goto.isOk,
           Action.create (recordOf questionType subjectName b) b.create.isOk])).flatten ∧
    (creates (scrapeByQuestionType site client questionType subjectName subjectSlug fuel).1).length
      = (blocksUpTo site k).length ∧
    countEvents (isEmptyWarning questionType)
        (scrapeByQuestionType site client questionType subjectName subjectSlug fuel).1
      = (if client then 1 else 0) ∧
    (∃ pre, (scrapeByQuestionType site client questionType subjectName subjectSlug fuel).1
        = pre ++ Action.get (pageUrl subjectSlug questionType (k + 1)) true
            :: emit client (emptyWarning questionType
                ((blocksUpTo site k).filter (fun b => b.create.isOk)).length)) ∧
    (scrapeByQuestionType site client questionType subjectName subjectSlug fuel).2
      = CrawlResult.returned ((blocksUpTo site k).filter (fun b => b.create.isOk)).length := by
  have hstop : isStop (site (k + 1)) = true := by rw [hempty]; rfl
  rw [scrape_stop site client questionType subjectName subjectSlug k fuel hpages hstop hfuel]
  obtain ⟨p1, p2, p3, _, p5, _, _⟩ :=
    pagesLog_obs site client questionType subjectName subjectSlug k 1 0
  have hn : (pagesLog site client questionType subjectName subjectSlug k 1 0).2
      = ((blocksUpTo site k).filter (fun b => b.create.isOk)).length := by
    rw [p5, Nat.zero_add]
    exact savedCount_creates _ _ _ p2
  obtain ⟨s1, s2, s3, _, _, _, _⟩ := stopLog_obs client questionType subjectSlug (k + 1)
    (pagesLog site client questionType subjectName subjectSlug k 1 0).2 (site (k + 1))
  obtain ⟨_, c2, _, _⟩ :=
    pagesLog_counts questionType site client questionType subjectName subjectSlug k 1 0
  obtain ⟨_, d2, _, _⟩ := stopLog_counts client questionType subjectSlug (k + 1)
    (pagesLog site client questionType subjectName subjectSlug k 1 0).2 (site (k + 1))
  refine ⟨?_, ?_, ?_, ?_, ?_, ?_⟩
  · simp only [fetched_append, p1, s1]
    exact urls_upTo subjectSlug questionType k
  · simp only [cycles_append, p3, s3, List.append_nil]
    rfl
  · simp only [creates_append, p2, s2, List.append_nil, List.length_map]
    rfl
  · rw [countEvents_append, c2, d2, hempty]
    simp [isMarkup]
  · refine ⟨(pagesLog site client questionType subjectName subjectSlug k 1 0).1
        ++ emit client (pageEvent questionType (k + 1)
            (pagesLog site client questionType subjectName subjectSlug k 1 0).2), ?_⟩
    simp [hempty, stopLog, hn]
  · simp only [hn, hempty, stopResult]

/-- The number of non-empty pages a crawl goes through is fixed by the site: two
page numbers that both come after non-empty pages and both end the iteration are
the same. -/
theorem first_stop_unique (site : Site) (d k : Nat)
    (hd : ∀ i, i < d → isStop (site (1 + i)) = false) (hdstop : isStop (site (1 + d)) = true)
    (hk : ∀ p, 1 ≤ p → p ≤ k → ∃ b bs, site p = Outcome.ok (PageData.markup (b :: bs)))
    (hkstop : isStop (site (k + 1)) = true) : d = k := by
  rcases Nat.lt_trichotomy d k with hlt | heq | hgt
  · obtain ⟨b, bs, hs⟩ := hk (1 + d) (by omega) (by omega)
    rw [hs] at hdstop
    simp [isStop] at hdstop
  · exact heq
  · have := hd k hgt
    rw [Nat.add_comm 1 k, hkstop] at this
    exact Bool.noConfusion this

/-- Claim C4: a crawl that returns `n` made exactly `n` successful saves.  Such a
crawl went through some number `k` of pages with question blocks, fewer than its
fuel, and then met a page that ends the pagination; for that `k` (the site has
only one) its saves are those of the stubs of pages `1 .. k`, one per stub and in
order, whatever the earlier saves did, `n` is the number of them that succeeded,
and it wrote one save-error event per failed save (none without a channel); when
every save fails it returns 0 and writes as many save-error events as there are
stubs.  A successful save raises the count by one and writes a `saved` event; a
failed save writes one save-error event and leaves the count as it is; and the
steps of a stub are followed by those of the stubs after it, with the count the
save left. -/
theorem count_is_successful_saves (site : Site) (client : Bool)
    (questionType subjectName subjectSlug : String) (fuel n : Nat)
    (hret : (scrapeByQuestionType site client questionType subjectName subjectSlug fuel).2
      = CrawlResult.returned n) :
    n = savedCount (scrapeByQuestionType site client questionType subjectName subjectSlug fuel).1 ∧
    (∃ k, k < fuel ∧
      (∀ p, 1 ≤ p → p ≤ k → ∃ b bs, site p = Outcome.ok (PageData.markup (b :: bs))) ∧
      isEnd (site (k + 1)) = true) ∧
    (∀ k, (∀ p, 1 ≤ p → p ≤ k → ∃ b bs, site p = Outcome.ok (PageData.markup (b :: bs))) →
      isStop (site (k + 1)) = true →
      creates (scrapeByQuestionType site client questionType subjectName subjectSlug fuel).1
          = (blocksUpTo site k).map
              (fun b => (recordOf questionType subjectName b, b.create.isOk)) ∧
        n = ((blocksUpTo site k).filter (fun b => b.create.isOk)).length ∧
        countEvents isSaveError
            (scrapeByQuestionType site client questionType subjectName subjectSlug fuel).1
          = (if client then ((blocksUpTo site k).filter (fun b => !b.create.isOk)).length
              else 0) ∧
        ((∀ b ∈ blocksUpTo site k, b.create.isOk = false) →
          n = 0 ∧
          countEvents isSaveError
              (scrapeByQuestionType site client questionType subjectName subjectSlug fuel).1
            = (if client then (blocksUpTo site k).length else 0))) ∧
    (∀ t doc, save client t doc (Outcome.ok ())
      = (Action.create doc true :: emit client (savedEvent (t + 1)), t + 1)) ∧
    (∀ t doc m, save client t doc (Outcome.threw m)
      = (Action.create doc false :: emit client (saveError m t), t)) ∧
    (∀ (t : Nat) (b : BlockRun) (bs : List BlockRun),
      processStubs client questionType subjectName t (b :: bs) =
        ((enrich client t (extractStub b.block) b.detail).1
          ++ (save client t (recordOf questionType subjectName b) b.create).1
          ++ (processStubs client questionType subjectName
              (save client t (recordOf questionType subjectName b) b.create).2 bs).1,
         (processStubs client questionType subjectName
              (save client t (recordOf questionType subjectName b) b.create).2 bs).2)) := by
  obtain ⟨d, hdfuel, hdbefore, hdend, hn, heq⟩ :=
    crawlLoop_returned site client questionType subjectName subjectSlug fuel 1 0 n hret
  have hinv := (crawlLoop_invariant site client questionType subjectName subjectSlug fuel 1 0).2.2.2
    n hret
  have hdpages : ∀ p, 1 ≤ p → p ≤ d →
      ∃ b bs, site p = Outcome.ok (PageData.markup (b :: bs)) := by
    intro p hp1 hpd
    have := hdbefore (p - 1) (by omega)
    rw [show 1 + (p - 1) = p by omega] at this
    exact isStop_false _ this
  obtain ⟨_, p2, _, _, _, _, _⟩ :=
    pagesLog_obs site client questionType subjectName subjectSlug d 1 0
  obtain ⟨_, s2, _, _, _, _, _⟩ := stopLog_obs client questionType subjectSlug (1 + d)
    (pagesLog site client questionType subjectName subjectSlug d 1 0).2 (site (1 + d))
  obtain ⟨_, _, c3, _⟩ :=
    pagesLog_counts questionType site client questionType subjectName subjectSlug d 1 0
  obtain ⟨_, _, d3, _⟩ := stopLog_counts client questionType subjectSlug (1 + d)
    (pagesLog site client questionType subjectName subjectSlug d 1 0).2 (site (1 + d))
  have hcreates : creates
      (scrapeByQuestionType site client questionType subjectName subjectSlug fuel).1
        = (blocksUpTo site d).map
            (fun b => (recordOf questionType subjectName b, b.create.isOk)) := by
    unfold scrapeByQuestionType
    rw [heq]
    simp only [creates_append, p2, s2, List.append_nil]
    rfl
  have herrors : countEvents isSaveError
      (scrapeByQuestionType site client questionType subjectName subjectSlug fuel).1
        = (if client then ((blocksUpTo site d).filter (fun b => !b.create.isOk)).length
            else 0) := by
    unfold scrapeByQuestionType
    rw [heq]
    simp only [countEvents_append, c3, d3, Nat.add_zero]
    rfl
  have hsaved := savedCount_creates _ _ _ hcreates
  have hcount : n = ((blocksUpTo site d).filter (fun b => b.create.isOk)).length := by
    have h0 : n = 0 + savedCount
        (scrapeByQuestionType site client questionType subjectName subjectSlug fuel).1 := hinv
    rw [h0, hsaved, Nat.zero_add]
  refine ⟨by simpa [scrapeByQuestionType] using hinv,
    ⟨d, hdfuel, hdpages, by rw [Nat.add_comm d 1]; exact hdend⟩, ?_,
    fun t doc => rfl, fun t doc m => rfl,
    fun t b bs => processStubs_cons client questionType subjectName t b bs⟩
  intro k hkpages hkstop
  have hdk : d = k :=
    first_stop_unique site d k hdbefore (isEnd_isStop _ hdend) hkpages hkstop
  subst hdk
  refine ⟨hcreates, hcount, herrors, ?_⟩
  intro hall
  have hnone : (blocksUpTo site d).filter (fun b => b.create.isOk) = [] := by
    rw [List.filter_eq_nil_iff]
    intro b hb
    simp [hall b hb]
  have hevery : (blocksUpTo site d).filter (fun b => !b.create.isOk) = blocksUpTo site d := by
    rw [List.filter_eq_self]
    intro b hb
    simp [hall b hb]
  refine ⟨?_, by rw [herrors, hevery]⟩
  rw [hcount, hnone]
  rfl

/-- Claim C5: when pages `1 .. k` fetch successfully with at least one block and
the fetch of page `k + 1` fails with `message`, the crawl ends with that failed
fetch followed by one fetch-error event carrying `message` (when a channel is
there); it fetched exactly pages `1 .. k + 1` once each, saved exactly the stubs
of pages `1 .. k`, and returns the number of those saves that succeeded; the loop
over the question types then goes on with the next type, the count added to the
total. -/
theorem fetch_failure_ends_crawl (site : Site) (client : Bool)
    (questionType subjectName subjectSlug : String) (k fuel : Nat) (message : String)
    (hpages : ∀ p, 1 ≤ p → p ≤ k → ∃ b bs, site p = Outcome.ok (PageData.markup (b :: bs)))
    (hfail : site (k + 1) = Outcome.threw message)
    (hfuel : k + 1 ≤ fuel) :
    (∃ pre, (scrapeByQuestionType site client questionType subjectName subjectSlug fuel).1
        = pre ++ Action.get (pageUrl subjectSlug questionType (k + 1)) false
            :: emit client (fetchError (k + 1) message
                ((blocksUpTo site k).filter (fun b => b.create.isOk)).length)) ∧
    fetched (scrapeByQuestionType site client questionType subjectName subjectSlug fuel).1
      = (List.range (k + 1)).map (fun i => pageUrl subjectSlug questionType (i + 1)) ∧
    creates (scrapeByQuestionType site client questionType subjectName subjectSlug fuel).1
      = (blocksUpTo site k).map (fun b => (recordOf questionType subjectName b, b.create.isOk)) ∧
    countEvents isFetchError
        (scrapeByQuestionType site client questionType subjectName subjectSlug fuel).1
      = (if client then 1 else 0) ∧
    (scrapeByQuestionType site client questionType subjectName subjectSlug fuel).2
      = CrawlResult.returned ((blocksUpTo site k).filter (fun b => b.create.isOk)).length ∧
    (∀ (env : RunEnv) (rest : List String) (total : Nat), env.site questionType = site →
      crawlAll env client subjectName subjectSlug fuel (questionType :: rest) total
        = ((scrapeByQuestionType site client questionType subjectName subjectSlug fuel).1
            ++ (crawlAll env client subjectName subjectSlug fuel rest
                (total + ((blocksUpTo site k).filter (fun b => b.create.isOk)).length)).1,
           (crawlAll env client subjectName subjectSlug fuel rest
                (total + ((blocksUpTo site k).filter (fun b => b.create.isOk)).length)).2)) := by
  have hstop : isStop (site (k + 1)) = true := by rw [hfail]; rfl
  have hform :=
    scrape_stop site client questionType subjectName subjectSlug k fuel hpages hstop hfuel
  obtain ⟨p1, p2, _, _, p5, _, _⟩ :=
    pagesLog_obs site client questionType subjectName subjectSlug k 1 0
  have hn : (pagesLog site client questionType subjectName subjectSlug k 1 0).2
      = ((blocksUpTo site k).filter (fun b => b.create.isOk)).length := by
    rw [p5, Nat.zero_add]
    exact savedCount_creates _ _ _ p2
  obtain ⟨s1, s2, _, _, _, _, _⟩ := stopLog_obs client questionType subjectSlug (k + 1)
    (pagesLog site client questionType subjectName subjectSlug k 1 0).2 (site (k + 1))
  obtain ⟨_, _, _, c4⟩ :=
    pagesLog_counts questionType site client questionType subjectName subjectSlug k 1 0
  obtain ⟨_, _, _, d4⟩ := stopLog_counts client questionType subjectSlug (k + 1)
    (pagesLog site client questionType subjectName subjectSlug k 1 0).2 (site (k + 1))
  have hres : (scrapeByQuestionType site client questionType subjectName subjectSlug fuel).2
      = CrawlResult.returned ((blocksUpTo site k).filter (fun b => b.create.isOk)).length := by
    rw [hform, hn, hfail]
    rfl
  refine ⟨?_, ?_, ?_, ?_, hres, ?_⟩
  · refine ⟨(pagesLog site client questionType subjectName subjectSlug k 1 0).1
        ++ emit client (pageEvent questionType (k + 1)
            (pagesLog site client questionType subjectName subjectSlug k 1 0).2), ?_⟩
    rw [hform]
    simp [hfail, stopLog, hn]
  · rw [hform]
    simp only [fetched_append, p1, s1]
    exact urls_upTo subjectSlug questionType k
  · rw [hform]
    simp only [creates_append, p2, s2, List.append_nil]
    rfl
  · rw [hform]
    rw [countEvents_append, c4, d4, hfail]
    simp [Outcome.isOk]
  · intro env rest total henv
    simp only [crawlAll, henv, hres]

/-- Whatever the fuel, the saves of a crawl are those of the stubs of its first
pages, one per stub and in order, and it writes one detail warning per stub whose
enrichment fails. -/
theorem scrape_saves (site : Site) (c : Bool) (qt sn ss : String) (fuel : Nat) :
    ∃ k, creates (scrapeByQuestionType site c qt sn ss fuel).1
        = (blocksUpTo site k).map (fun b => (recordOf qt sn b, b.create.isOk)) ∧
      countEvents isDetailWarning (scrapeByQuestionType site c qt sn ss fuel).1
        = (if c then ((blocksUpTo site k).filter (fun b => detailFails b.detail)).length
            else 0) := by
  obtain ⟨d, _, _, hcase⟩ := crawlLoop_normal site c qt sn ss fuel 1 0
  obtain ⟨_, p2, _, _, _, _, _⟩ := pagesLog_obs site c qt sn ss d 1 0
  obtain ⟨c1, _, _, _⟩ := pagesLog_counts qt site c qt sn ss d 1 0
  refine ⟨d, ?_, ?_⟩
  · rcases hcase with ⟨_, heq⟩ | ⟨_, _, heq⟩
    · unfold scrapeByQuestionType; rw [heq]; exact p2
    · obtain ⟨_, s2, _, _, _, _, _⟩ :=
        stopLog_obs c qt ss (1 + d) (pagesLog site c qt sn ss d 1 0).2 (site (1 + d))
      unfold scrapeByQuestionType
      rw [heq]
      simp only [creates_append, p2, s2, List.append_nil]
      rfl
  · rcases hcase with ⟨_, heq⟩ | ⟨_, _, heq⟩
    · unfold scrapeByQuestionType; rw [heq]; exact c1
    · obtain ⟨d1, _, _, _⟩ :=
        stopLog_counts c qt ss (1 + d) (pagesLog site c qt sn ss d 1 0).2 (site (1 + d))
      unfold scrapeByQuestionType
      rw [heq]
      simp only [countEvents_append, c1, d1, Nat.add_zero]
      rfl

theorem halts_first (site : Site) (h : Halts site) :
    ∃ k, (∀ p, 1 ≤ p → p ≤ k → ∃ b bs, site p = Outcome.ok (PageData.markup (b :: bs))) ∧
      isEnd (site (k + 1)) = true := by
  obtain ⟨k, hbefore, hend⟩ := h
  refine ⟨k, ?_, hend⟩
  intro p hp1 hpk
  have := hbefore (p - 1) (by omega)
  rw [show p - 1 + 1 = p by omega] at this
  exact isStop_false _ this

/-- A crawl over a site whose pagination ends with a return returns, for every
large enough fuel. -/
theorem scrape_returns (site : Site) (h : Halts site) :
    ∃ F, ∀ fuel, F ≤ fuel → ∀ (c : Bool) (qt sn ss : String),
      ∃ n, (scrapeByQuestionType site c qt sn ss fuel).2 = CrawlResult.returned n := by
  obtain ⟨k, hpages, hend⟩ := halts_first site h
  refine ⟨k + 1, fun fuel hfuel c qt sn ss => ?_⟩
  rw [scrape_stop site c qt sn ss k fuel hpages (isEnd_isStop _ hend) hfuel,
    stopResult_isEnd _ _ hend]
  exact ⟨_, rfl⟩

theorem counted_split (t : Nat) (pre post : List Action) (ev : ProgressEvent)
    (h : counted t (pre ++ Action.write ev :: post)) :
    ev.totalScraped = some (t + savedCount pre) := by
  rw [counted_append] at h
  exact h.2.1

theorem counted_sorted (log : List Action) :
    ∀ t, counted t log → (∀ x ∈ totals log, t ≤ x) ∧ List.Sorted (· ≤ ·) (totals log) := by
  induction log with
  | nil => intro t _; simp [totals, events]
  | cons a rest ih =>
    intro t h
    cases a with
    | write ev =>
      simp only [counted] at h
      obtain ⟨hb, hs⟩ := ih t h.2
      have ht : totals (Action.write ev :: rest) = t :: totals rest := by
        simp [totals, events, h.1]
      rw [ht]
      refine ⟨?_, List.sorted_cons.mpr ⟨hb, hs⟩⟩
      intro x hx
      rcases List.mem_cons.mp hx with rfl | hx
      · exact le_refl _
      · exact hb x hx
    | create doc ok =>
      cases ok
      · simp only [counted] at h
        exact ih t h
      · simp only [counted] at h
        obtain ⟨hb, hs⟩ := ih (t + 1) h
        exact ⟨fun x hx => by have := hb x hx; omega, hs⟩
    | _ =>
      simp only [counted] at h
      exact ih t h

theorem countEvents_crawl (f : ProgressEvent → Bool) (log : List Action)
    (hlog : ∀ a ∈ log, crawlAction a = true)
    (hf : ∀ ev, f ev = true → crawlAction (Action.write ev) = false) :
    countEvents f log = 0 := by
  induction log with
  | nil => rfl
  | cons a rest ih =>
    have hrest := ih (fun x hx => hlog x (List.mem_cons_of_mem _ hx))
    have ha := hlog a (List.mem_cons_self _ _)
    cases a with
    | write ev =>
      have hfev : f ev = false := by
        cases h : f ev with
        | false => rfl
        | true => rw [hf ev h] at ha; exact Bool.noConfusion ha
      simp only [countEvents, events, List.filter_cons, hfev] at hrest ⊢
      simpa using hrest
    | _ => simpa [countEvents, events] using hrest

theorem scrape_invariant (site : Site) (c : Bool) (qt sn ss : String) (fuel : Nat) :
    counted 0 (scrapeByQuestionType site c qt sn ss fuel).1 ∧
    (∀ a ∈ (scrapeByQuestionType site c qt sn ss fuel).1, crawlAction a = true) ∧
    closeCount (scrapeByQuestionType site c qt sn ss fuel).1 = 0 :=
  ⟨(crawlLoop_invariant site c qt sn ss fuel 1 0).1,
    (crawlLoop_invariant site c qt sn ss fuel 1 0).2.1,
    (crawlLoop_invariant site c qt sn ss fuel 1 0).2.2.1⟩

/-- The steps of a run whose three crawls return. -/
theorem run_resolved (env : RunEnv) (sn ss sid : String) (clients : String → Bool)
    (fuel n1 n2 n3 : Nat)
    (hlaunch : env.launch = Outcome.ok ()) (hpage : env.newPage = Outcome.ok ())
    (h1 : (scrapeByQuestionType (env.site "objective") (clients sid) "objective" sn ss fuel).2
      = CrawlResult.returned n1)
    (h2 : (scrapeByQuestionType (env.site "theory") (clients sid) "theory" sn ss fuel).2
      = CrawlResult.returned n2)
    (h3 : (scrapeByQuestionType (env.site "practical") (clients sid) "practical" sn ss fuel).2
      = CrawlResult.returned n3) :
    scrapeAllQuestions env sn ss sid clients fuel =
      ([Action.launch true, Action.newPage true] ++ emit (clients sid) (startEvent sn)
        ++ ((scrapeByQuestionType (env.site "objective") (clients sid) "objective" sn ss fuel).1
          ++ ((scrapeByQuestionType (env.site "theory") (clients sid) "theory" sn ss fuel).1
          ++ (scrapeByQuestionType (env.site "practical") (clients sid) "practical" sn ss
              fuel).1))
        ++ [Action.close] ++ emit (clients sid) (endEvent (n1 + n2 + n3)),
       Completion.resolved JsValue.undefined) := by
  simp [scrapeAllQuestions, hlaunch, hpage, crawlAll, questionTypes, h1, h2, h3]

theorem crawlAll_invariant (env : RunEnv) (c : Bool) (sn ss : String) (fuel : Nat)
    (qts : List String) :
    ∀ total, (∀ a ∈ (crawlAll env c sn ss fuel qts total).1, crawlAction a = true) ∧
      closeCount (crawlAll env c sn ss fuel qts total).1 = 0 := by
  induction qts with
  | nil => intro total; simp [crawlAll, closeCount]
  | cons qt qts ih =>
    intro total
    obtain ⟨_, i2, i3⟩ := scrape_invariant (env.site qt) c qt sn ss fuel
    simp only [crawlAll]
    cases hr : (scrapeByQuestionType (env.site qt) c qt sn ss fuel).2 with
    | running => exact ⟨i2, i3⟩
    | threw m => exact ⟨i2, i3⟩
    | returned n =>
      obtain ⟨j2, j3⟩ := ih (total + n)
      refine ⟨?_, by simp [i3, j3]⟩
      intro a ha
      rcases List.mem_append.mp ha with ha | ha
      · exact i2 a ha
      · exact j2 a ha

/-- The steps of a run that rejects although the browser started and the page
opened: a crawl threw. -/
theorem run_rejected (env : RunEnv) (sn ss sid : String) (clients : String → Bool)
    (fuel : Nat) (message : String)
    (hlaunch : env.launch = Outcome.ok ()) (hpage : env.newPage = Outcome.ok ())
    (hrej : (scrapeAllQuestions env sn ss sid clients fuel).2 = Completion.rejected message) :
    (crawlAll env (clients sid) sn ss fuel questionTypes 0).2 = CrawlResult.threw message ∧
    (scrapeAllQuestions env sn ss sid clients fuel).1
      = [Action.launch true, Action.newPage true] ++ emit (clients sid) (startEvent sn)
        ++ (crawlAll env (clients sid) sn ss fuel questionTypes 0).1 := by
  cases hr : (crawlAll env (clients sid) sn ss fuel questionTypes 0).2 with
  | running => simp [scrapeAllQuestions, hlaunch, hpage, hr] at hrej
  | returned total => simp [scrapeAllQuestions, hlaunch, hpage, hr] at hrej
  | threw m =>
    simp only [scrapeAllQuestions, hlaunch, hpage, hr, Completion.rejected.injEq] at hrej
    subst hrej
    simp [scrapeAllQuestions, hlaunch, hpage, hr]

/-! ### The orchestrator -/

theorem start_not_crawl (ev : ProgressEvent) (h : decide (ev.type = "start") = true) :
    crawlAction (Action.write ev) = false := by
  have ht : ev.type = "start" := of_decide_eq_true h
  simp [crawlAction, ht]

theorem end_not_crawl (ev : ProgressEvent) (h : decide (ev.type = "end") = true) :
    crawlAction (Action.write ev) = false := by
  have ht : ev.type = "end" := of_decide_eq_true h
  simp [crawlAction, ht]

theorem completed_not_crawl (ev : ProgressEvent) (h : ev.completed = true) :
    crawlAction (Action.write ev) = false := by
  simp [crawlAction, h]

/-- Claim C6 fails as stated: in a run whose browser starts, whose page opens and
whose session has a channel, but in which the fetch of the first objective page
resolves with no data, `cheerio.load` throws outside every `try`: the run rejects
after the `start` event and the event of the first page, fetches that one page
only, and writes no `end` event. -/
theorem no_end_event_when_crawl_throws :
    noDataEnv.launch = Outcome.ok () ∧ noDataEnv.newPage = Outcome.ok () ∧
    allClients "session-1" = true ∧
    (scrapeAllQuestions noDataEnv "Mathematics" "mathematics" "session-1" allClients 3).2
      = Completion.rejected "cheerio.load() expects a string" ∧
    events (scrapeAllQuestions noDataEnv "Mathematics" "mathematics" "session-1" allClients 3).1
      = [startEvent "Mathematics", pageEvent "objective" 1 0] ∧
    fetched (scrapeAllQuestions noDataEnv "Mathematics" "mathematics" "session-1" allClients 3).1
      = [pageUrl "mathematics" "objective" 1] ∧
    countEvents (fun ev => ev.type = "end")
      (scrapeAllQuestions noDataEnv "Mathematics" "mathematics" "session-1" allClients 3).1
      = 0 := by
  decide

/-- Claim C6, amended: take a run whose browser starts, whose page opens and whose
session has a channel.  If the pagination of each of the three question types
ends with a return then, for every large enough fuel, the three crawls return
counts `n1`, `n2`, `n3`, the steps of the run are the launch, the page opening and
the `start` event, then the steps of the crawls of `objective`, `theory` and
`practical` in that order, then the close and the `end` event; the first event is
the `start` event, the last is the `end` event, there is exactly one of each, and
the `end` event carries `n1 + n2 + n3`, whatever page fetches, enrichments or
saves failed.  If the run rejects instead (a crawl threw), its first event is the
`start` event, there is exactly one, and there is no `end` event. -/
theorem run_start_end (env : RunEnv) (subjectName subjectSlug sessionId : String)
    (clients : String → Bool)
    (hlaunch : env.launch = Outcome.ok ()) (hpage : env.newPage = Outcome.ok ())
    (hclient : clients sessionId = true) :
    (Halts (env.site "objective") → Halts (env.site "theory") →
      Halts (env.site "practical") →
      ∃ F, ∀ fuel, F ≤ fuel → ∃ n1 n2 n3,
        (scrapeByQuestionType (env.site "objective") true "objective" subjectName subjectSlug
          fuel).2 = CrawlResult.returned n1 ∧
        (scrapeByQuestionType (env.site "theory") true "theory" subjectName subjectSlug
          fuel).2 = CrawlResult.returned n2 ∧
        (scrapeByQuestionType (env.site "practical") true "practical" subjectName subjectSlug
          fuel).2 = CrawlResult.returned n3 ∧
        (scrapeAllQuestions env subjectName subjectSlug sessionId clients fuel).1
          = [Action.launch true, Action.newPage true, Action.write (startEvent subjectName)]
            ++ (scrapeByQuestionType (env.site "objective") true "objective" subjectName
                subjectSlug fuel).1
            ++ (scrapeByQuestionType (env.site "theory") true "theory" subjectName
                subjectSlug fuel).1
            ++ (scrapeByQuestionType (env.site "practical") true "practical" subjectName
                subjectSlug fuel).1
            ++ [Action.close, Action.write (endEvent (n1 + n2 + n3))] ∧
        (events (scrapeAllQuestions env subjectName subjectSlug sessionId clients fuel).1).head?
          = some (startEvent subjectName) ∧
        (events
            (scrapeAllQuestions env subjectName subjectSlug sessionId clients fuel).1).getLast?
          = some (endEvent (n1 + n2 + n3)) ∧
        countEvents (fun ev => ev.type = "start")
          (scrapeAllQuestions env subjectName subjectSlug sessionId clients fuel).1 = 1 ∧
        countEvents (fun ev => ev.type = "end")
          (scrapeAllQuestions env subjectName subjectSlug sessionId clients fuel).1 = 1 ∧
        (endEvent (n1 + n2 + n3)).totalScraped = some (n1 + n2 + n3)) ∧
    (∀ fuel message,
      (scrapeAllQuestions env subjectName subjectSlug sessionId clients fuel).2
        = Completion.rejected message →
      (events (scrapeAllQuestions env subjectName subjectSlug sessionId clients fuel).1).head?
        = some (startEvent subjectName) ∧
      countEvents (fun ev => ev.type = "start")
        (scrapeAllQuestions env subjectName subjectSlug sessionId clients fuel).1 = 1 ∧
      countEvents (fun ev => ev.type = "end")
        (scrapeAllQuestions env subjectName subjectSlug sessionId clients fuel).1 = 0) := by
  constructor
  · intro h1 h2 h3
    obtain ⟨F1, hF1⟩ := scrape_returns _ h1
    obtain ⟨F2, hF2⟩ := scrape_returns _ h2
    obtain ⟨F3, hF3⟩ := scrape_returns _ h3
    refine ⟨F1 + F2 + F3, fun fuel hfuel => ?_⟩
    obtain ⟨n1, e1⟩ := hF1 fuel (by omega) true "objective" subjectName subjectSlug
    obtain ⟨n2, e2⟩ := hF2 fuel (by omega) true "theory" subjectName subjectSlug
    obtain ⟨n3, e3⟩ := hF3 fuel (by omega) true "practical" subjectName subjectSlug
    have hrun := run_resolved env subjectName subjectSlug sessionId clients fuel n1 n2 n3
      hlaunch hpage (by rw [hclient]; exact e1) (by rw [hclient]; exact e2)
      (by rw [hclient]; exact e3)
    rw [hclient] at hrun
    have i1 := (scrape_invariant (env.site "objective") true "objective" subjectName
      subjectSlug fuel).2.1
    have i2 := (scrape_invariant (env.site "theory") true "theory" subjectName subjectSlug
      fuel).2.1
    have i3 := (scrape_invariant (env.site "practical") true "practical" subjectName
      subjectSlug fuel).2.1
    refine ⟨n1, n2, n3, e1, e2, e3, ?_, ?_, ?_, ?_, ?_, rfl⟩
    · rw [hrun]; simp [emit]
    · rw [hrun]; simp [emit, events]
    · rw [hrun]
      simp only [events_append, events_emit, if_true]
      rw [List.getLast?_append]
      simp
    · rw [hrun]
      simp only [countEvents_append,
        countEvents_crawl _ _ i1 start_not_crawl, countEvents_crawl _ _ i2 start_not_crawl,
        countEvents_crawl _ _ i3 start_not_crawl]
      simp [countEvents, events, emit, startEvent, endEvent]
    · rw [hrun]
      simp only [countEvents_append,
        countEvents_crawl _ _ i1 end_not_crawl, countEvents_crawl _ _ i2 end_not_crawl,
        countEvents_crawl _ _ i3 end_not_crawl]
      simp [countEvents, events, emit, startEvent, endEvent]
  · intro fuel message hrej
    obtain ⟨_, hlog⟩ := run_rejected env subjectName subjectSlug sessionId clients fuel message
      hlaunch hpage hrej
    have hall := (crawlAll_invariant env (clients sessionId) subjectName subjectSlug fuel
      questionTypes 0).1
    rw [hlog, hclient]
    rw [hclient] at hall
    refine ⟨by simp [emit, events], ?_, ?_⟩
    · simp only [countEvents_append, countEvents_crawl _ _ hall start_not_crawl]
      simp [countEvents, events, emit, startEvent]
    · simp only [countEvents_append, countEvents_crawl _ _ hall end_not_crawl]
      simp [countEvents, events, emit, startEvent]

/-- Claim C7 fails as stated: on a stub whose answer heading is read as
`Correct Answer: B` and whose explanation evaluation then rejects, the enrichment
fails and the record passed to the sink has answer `B`, not `N/A`. -/
theorem evaluate_failure_keeps_answer :
    detailFails evaluateFailDetail = true ∧
    (creates (scrapeByQuestionType evaluateFailSite true "objective" "Mathematics" "mathematics"
        2).1).map (fun c => (c.1.answer, c.1.explanation, c.2))
      = [("B", "No explanation", true)] ∧
    "B" ≠ "N/A" := by
  decide

/-- Claim C7, amended: every stub of the pages a crawl goes through is saved, in
order, and the crawl writes one detail warning per stub whose enrichment fails
(when a channel is there).  When the navigation, the wait for the answer heading
or the reading of the heading fails, the record has answer `N/A` and explanation
`No explanation`; when only the evaluation of the explanation fails, the record
keeps the answer read from the heading and has explanation `No explanation`.  The
enrichment of one stub writes exactly one warning when it fails and none
otherwise, and the steps of a stub are followed by its save and by the steps of
the stubs after it. -/
theorem enrichment_failure_degrades (site : Site) (client : Bool)
    (questionType subjectName subjectSlug : String) (fuel : Nat) :
    (∃ k, creates (scrapeByQuestionType site client questionType subjectName subjectSlug fuel).1
          = (blocksUpTo site k).map
              (fun b => (recordOf questionType subjectName b, b.create.isOk)) ∧
        countEvents isDetailWarning
            (scrapeByQuestionType site client questionType subjectName subjectSlug fuel).1
          = (if client then ((blocksUpTo site k).filter (fun b => detailFails b.detail)).length
              else 0)) ∧
    (∀ b : BlockRun,
      (b.detail.goto.isOk && b.detail.waitForSelector.isOk && b.detail.evalHeading.isOk) = false →
      (recordOf questionType subjectName b).answer = "N/A" ∧
      (recordOf questionType subjectName b).explanation = "No explanation") ∧
    (∀ (b : BlockRun) (text message : String),
      b.detail.goto.isOk = true → b.detail.waitForSelector.isOk = true →
      b.detail.evalHeading = Outcome.ok text → b.detail.evaluate = Outcome.threw message →
      (recordOf questionType subjectName b).answer = answerOf text ∧
      (recordOf questionType subjectName b).explanation = "No explanation") ∧
    (∀ (t : Nat) (q : QuestionStub) (r : DetailResponses),
      countEvents isDetailWarning (enrich client t q r).1
        = (if client && detailFails r then 1 else 0)) ∧
    (∀ (t : Nat) (b : BlockRun) (bs : List BlockRun),
      processStubs client questionType subjectName t (b :: bs) =
        ((enrich client t (extractStub b.block) b.detail).1
          ++ (save client t (recordOf questionType subjectName b) b.create).1
          ++ (processStubs client questionType subjectName
              (save client t (recordOf questionType subjectName b) b.create).2 bs).1,
         (processStubs client questionType subjectName
              (save client t (recordOf questionType subjectName b) b.create).2 bs).2)) := by
  refine ⟨scrape_saves site client questionType subjectName subjectSlug fuel, ?_, ?_,
    fun t q r => (enrich_counts questionType client t q r).1,
    fun t b bs => processStubs_cons client questionType subjectName t b bs⟩
  · intro b hb
    obtain ⟨blk, ⟨g, w, h, e⟩, cr⟩ := b
    cases g <;> cases w <;> cases h <;>
      simp [Outcome.isOk] at hb <;> simp [recordOf, documentOf, enrich]
  · intro b text message hg hw hh he
    obtain ⟨blk, ⟨g, w, h, e⟩, cr⟩ := b
    simp only at hg hw hh he
    subst hh he
    cases g <;> cases w <;> simp [Outcome.isOk] at hg hw
    simp [recordOf, documentOf, enrich]

/-- Claim C8 fails as stated: in a run whose browser starts and whose page opening
rejects, the run rejects and `browser.close` is never called. -/
theorem page_failure_leaves_browser_open :
    scrapeAllQuestions noPageEnv "Mathematics" "mathematics" "session-1" allClients 3
      = ([Action.launch true, Action.newPage false], Completion.rejected "Target closed") ∧
    closeCount (scrapeAllQuestions noPageEnv "Mathematics" "mathematics" "session-1"
      allClients 3).1 = 0 := by
  decide

/-- Claim C8, amended: in a run whose browser starts, if the page opens and the
pagination of each question type ends with a return then, for every large enough
fuel, `browser.close` is called exactly once, after the three crawls and right
before the `end` event, and the run resolves; if opening the page rejects, the run
rejects with that error and `browser.close` is not called; and if the page opens
and the run rejects all the same (a crawl threw), `browser.close` is not called
either. -/
theorem browser_closed_after_crawls (env : RunEnv) (subjectName subjectSlug sessionId : String)
    (clients : String → Bool) (hlaunch : env.launch = Outcome.ok ()) :
    (env.newPage = Outcome.ok () → Halts (env.site "objective") → Halts (env.site "theory") →
      Halts (env.site "practical") →
      ∃ F, ∀ fuel, F ≤ fuel →
        closeCount (scrapeAllQuestions env subjectName subjectSlug sessionId clients fuel).1 = 1 ∧
        (∃ pre total,
          (scrapeAllQuestions env subjectName subjectSlug sessionId clients fuel).1
            = pre ++ Action.close :: emit (clients sessionId) (endEvent total)) ∧
        (scrapeAllQuestions env subjectName subjectSlug sessionId clients fuel).2
          = Completion.resolved JsValue.undefined) ∧
    (∀ message, env.newPage = Outcome.threw message → ∀ fuel,
      closeCount (scrapeAllQuestions env subjectName subjectSlug sessionId clients fuel).1 = 0 ∧
      (scrapeAllQuestions env subjectName subjectSlug sessionId clients fuel).2
        = Completion.rejected message) ∧
    (env.newPage = Outcome.ok () → ∀ fuel message,
      (scrapeAllQuestions env subjectName subjectSlug sessionId clients fuel).2
        = Completion.rejected message →
      closeCount (scrapeAllQuestions env subjectName subjectSlug sessionId clients fuel).1
        = 0) := by
  refine ⟨?_, ?_, ?_⟩
  rotate_left 2
  · intro hpage fuel message hrej
    obtain ⟨_, hlog⟩ := run_rejected env subjectName subjectSlug sessionId clients fuel message
      hlaunch hpage hrej
    have hclose := (crawlAll_invariant env (clients sessionId) subjectName subjectSlug fuel
      questionTypes 0).2
    rw [hlog]
    simp [closeCount, hclose]
  · intro hpage h1 h2 h3
    obtain ⟨F1, hF1⟩ := scrape_returns _ h1
    obtain ⟨F2, hF2⟩ := scrape_returns _ h2
    obtain ⟨F3, hF3⟩ := scrape_returns _ h3
    refine ⟨F1 + F2 + F3, fun fuel hfuel => ?_⟩
    obtain ⟨n1, e1⟩ := hF1 fuel (by omega) (clients sessionId) "objective" subjectName subjectSlug
    obtain ⟨n2, e2⟩ := hF2 fuel (by omega) (clients sessionId) "theory" subjectName subjectSlug
    obtain ⟨n3, e3⟩ := hF3 fuel (by omega) (clients sessionId) "practical" subjectName subjectSlug
    have hrun := run_resolved env subjectName subjectSlug sessionId clients fuel n1 n2 n3
      hlaunch hpage e1 e2 e3
    have i1 := (scrape_invariant (env.site "objective") (clients sessionId) "objective"
      subjectName subjectSlug fuel).2.2
    have i2 := (scrape_invariant (env.site "theory") (clients sessionId) "theory"
      subjectName subjectSlug fuel).2.2
    have i3 := (scrape_invariant (env.site "practical") (clients sessionId) "practical"
      subjectName subjectSlug fuel).2.2
    rw [hrun]
    refine ⟨?_, ⟨[Action.launch true, Action.newPage true]
        ++ emit (clients sessionId) (startEvent subjectName)
        ++ ((scrapeByQuestionType (env.site "objective") (clients sessionId) "objective"
            subjectName subjectSlug fuel).1
          ++ ((scrapeByQuestionType (env.site "theory") (clients sessionId) "theory"
            subjectName subjectSlug fuel).1
          ++ (scrapeByQuestionType (env.site "practical") (clients sessionId) "practical"
            subjectName subjectSlug fuel).1)), n1 + n2 + n3, ?_⟩, rfl⟩
    · simp [closeCount_append, i1, i2, i3, closeCount]
    · simp only [List.append_assoc, List.singleton_append]
  · intro message hpage fuel
    simp [scrapeAllQuestions, hlaunch, hpage, closeCount]

/-- Claim C9 fails as stated: in the sample run started through the trigger, two
events have `completed: true`, the `end` event and then the `success` event of
the completion callback of the handler. -/
theorem two_completed_events :
    (events (startScraping sampleEnv allClients sampleBody 3).2).filter (fun ev => ev.completed)
      = [endEvent 2, completedEvent] ∧
    ((events (startScraping sampleEnv allClients sampleBody 3).2).filter
      (fun ev => ev.completed)).length ≠ 1 := by
  decide

theorem completed_crawl (site : Site) (c : Bool) (qt sn ss : String) (fuel : Nat) :
    (events (scrapeByQuestionType site c qt sn ss fuel).1).filter (fun ev => ev.completed) = [] := by
  have h := countEvents_crawl (fun ev => ev.completed) _
    (scrape_invariant site c qt sn ss fuel).2.1 completed_not_crawl
  exact List.length_eq_zero.mp h

theorem completed_crawlAll (env : RunEnv) (c : Bool) (sn ss : String) (fuel : Nat)
    (qts : List String) (total : Nat) :
    (events (crawlAll env c sn ss fuel qts total).1).filter (fun ev => ev.completed) = [] := by
  have h := countEvents_crawl (fun ev => ev.completed) _
    (crawlAll_invariant env c sn ss fuel qts total).1 completed_not_crawl
  exact List.length_eq_zero.mp h

/-- A run that rejects wrote no event with `completed: true`. -/
theorem rejected_no_completed (env : RunEnv) (sn ss sid : String) (clients : String → Bool)
    (fuel : Nat) (message : String)
    (hrej : (scrapeAllQuestions env sn ss sid clients fuel).2 = Completion.rejected message) :
    (events (scrapeAllQuestions env sn ss sid clients fuel).1).filter
      (fun ev => ev.completed) = [] := by
  cases hl : env.launch with
  | threw m => simp [scrapeAllQuestions, hl, events]
  | ok u =>
    cases hp : env.newPage with
    | threw m => simp [scrapeAllQuestions, hl, hp, events]
    | ok v =>
      obtain ⟨_, hlog⟩ := run_rejected env sn ss sid clients fuel message hl hp hrej
      rw [hlog]
      simp only [events_append, List.filter_append, completed_crawlAll]
      cases clients sid <;> simp [events, emit, startEvent]

/-- Claim C9, amended: for a run started through the trigger with the three
fields present and a channel registered, exactly one event written by
`scrapeAllQuestions` and its crawls has `completed: true`, the `end` event; over
the whole channel the events with `completed: true` are that `end` event followed
by the `success` event of the completion callback when the run resolves, and the
`error` event of the failure callback alone when the browser cannot start or the
page cannot open, and more generally whenever the run rejects. -/
theorem completed_events (env : RunEnv) (scrapingClients : String → Bool)
    (subjectName subjectSlug sessionId : String)
    (hname : subjectName ≠ "") (hslug : subjectSlug ≠ "") (hid : sessionId ≠ "")
    (hclient : scrapingClients sessionId = true) :
    (env.launch = Outcome.ok () → env.newPage = Outcome.ok () →
      Halts (env.site "objective") → Halts (env.site "theory") → Halts (env.site "practical") →
      ∃ F, ∀ fuel, F ≤ fuel → ∃ total,
        (events (scrapeAllQuestions env subjectName subjectSlug sessionId scrapingClients
            fuel).1).filter (fun ev => ev.completed) = [endEvent total] ∧
        (events (startScraping env scrapingClients
            (Body.mk (some subjectName) (some subjectSlug) (some sessionId)) fuel).2).filter
          (fun ev => ev.completed) = [endEvent total, completedEvent]) ∧
    (∀ message, (env.launch = Outcome.threw message ∨
        (env.launch = Outcome.ok () ∧ env.newPage = Outcome.threw message)) → ∀ fuel,
      (events (startScraping env scrapingClients
          (Body.mk (some subjectName) (some subjectSlug) (some sessionId)) fuel).2).filter
        (fun ev => ev.completed) = [failedEvent message]) ∧
    (∀ fuel message,
      (scrapeAllQuestions env subjectName subjectSlug sessionId scrapingClients fuel).2
        = Completion.rejected message →
      (events (startScraping env scrapingClients
          (Body.mk (some subjectName) (some subjectSlug) (some sessionId)) fuel).2).filter
        (fun ev => ev.completed) = [failedEvent message]) := by
  have hbody : ∀ fuel, startScraping env scrapingClients
      (Body.mk (some subjectName) (some subjectSlug) (some sessionId)) fuel
      = (200, emit true (startingEvent subjectName)
          ++ (scrapeAllQuestions env subjectName subjectSlug sessionId scrapingClients fuel).1
          ++ (match (scrapeAllQuestions env subjectName subjectSlug sessionId scrapingClients
                fuel).2 with
              | Completion.pending => []
              | Completion.resolved _ => emit true completedEvent
              | Completion.rejected m => emit true (failedEvent m))) := by
    intro fuel
    simp [startScraping, truthy, hname, hslug, hid, hclient]
  refine ⟨?_, ?_, ?_⟩
  rotate_left 2
  · intro fuel message hrej
    have hnone := rejected_no_completed env subjectName subjectSlug sessionId scrapingClients
      fuel message hrej
    rw [hbody]
    simp only [events_append, List.filter_append, hnone, hrej]
    simp [events, emit, startingEvent, failedEvent]
  · intro hlaunch hpage h1 h2 h3
    obtain ⟨F1, hF1⟩ := scrape_returns _ h1
    obtain ⟨F2, hF2⟩ := scrape_returns _ h2
    obtain ⟨F3, hF3⟩ := scrape_returns _ h3
    refine ⟨F1 + F2 + F3, fun fuel hfuel => ?_⟩
    obtain ⟨n1, e1⟩ := hF1 fuel (by omega) true "objective" subjectName subjectSlug
    obtain ⟨n2, e2⟩ := hF2 fuel (by omega) true "theory" subjectName subjectSlug
    obtain ⟨n3, e3⟩ := hF3 fuel (by omega) true "practical" subjectName subjectSlug
    have hrun := run_resolved env subjectName subjectSlug sessionId scrapingClients fuel n1 n2 n3
      hlaunch hpage (by rw [hclient]; exact e1) (by rw [hclient]; exact e2)
      (by rw [hclient]; exact e3)
    rw [hclient] at hrun
    have hinner : (events (scrapeAllQuestions env subjectName subjectSlug sessionId
        scrapingClients fuel).1).filter (fun ev => ev.completed) = [endEvent (n1 + n2 + n3)] := by
      rw [hrun]
      simp only [events_append, List.filter_append, completed_crawl]
      simp [events, emit, startEvent, endEvent]
    refine ⟨n1 + n2 + n3, hinner, ?_⟩
    rw [hbody]
    simp only [events_append, List.filter_append, hinner]
    rw [hrun]
    simp [events, emit, startingEvent, completedEvent]
  · intro message hfail fuel
    rw [hbody]
    rcases hfail with hl | ⟨hl, hp⟩
    · simp [scrapeAllQuestions, hl, events, emit, startingEvent, failedEvent]
    · simp [scrapeAllQuestions, hl, hp, events, emit, startingEvent, failedEvent]

/-- Claim C10 fails as stated: in the sample run, with one saved objective
question and one saved theory question, the totals carried by the events fall
back from 1 to 0 when the theory crawl starts, and the `saved` event of the
theory question carries 1 while two records have been persisted. -/
theorem total_restarts_per_category :
    totals (scrapeAllQuestions sampleEnv "Mathematics" "mathematics" "session-1" allClients 3).1
      = [0, 0, 0, 0, 1, 1, 1, 0, 0, 0, 1, 1, 1, 0, 0, 2] ∧
    ¬ List.Sorted (· ≤ ·)
      (totals (scrapeAllQuestions sampleEnv "Mathematics" "mathematics" "session-1"
        allClients 3).1) ∧
    (scrapeAllQuestions sampleEnv "Mathematics" "mathematics" "session-1" allClients 3).1.get? 25
      = some (Action.write (savedEvent 1)) ∧
    savedCount ((scrapeAllQuestions sampleEnv "Mathematics" "mathematics" "session-1"
      allClients 3).1.take 25) = 2 := by
  decide

/-- Claim C10, amended: each category crawl keeps its own count, starting at 0:
every event of a crawl carries the number of records persisted before it in that
crawl (a `saved` event counts its own record), the totals carried by the events
of one crawl never decrease, and the first event of a crawl carries 0. -/
theorem crawl_totals_monotone (site : Site) (client : Bool)
    (questionType subjectName subjectSlug : String) (fuel : Nat) :
    (∀ pre ev post,
      (scrapeByQuestionType site client questionType subjectName subjectSlug fuel).1
        = pre ++ Action.write ev :: post →
      ev.totalScraped = some (savedCount pre)) ∧
    List.Sorted (· ≤ ·)
      (totals (scrapeByQuestionType site client questionType subjectName subjectSlug fuel).1) ∧
    (∃ rest, (scrapeByQuestionType site client questionType subjectName subjectSlug
        (fuel + 1)).1 = emit client (pageEvent questionType 1 0) ++ rest) := by
  have hc := (scrape_invariant site client questionType subjectName subjectSlug fuel).1
  refine ⟨?_, (counted_sorted _ 0 hc).2, ?_⟩
  · intro pre ev post hsplit
    rw [hsplit] at hc
    simpa using counted_split 0 pre post ev hc
  · unfold scrapeByQuestionType
    cases hs : site 1 with
    | threw m => exact ⟨_, by simp only [crawlLoop, hs, List.append_assoc]; rfl⟩
    | ok data =>
      cases data with
      | unloadable m => exact ⟨_, by simp only [crawlLoop, hs, List.append_assoc]; rfl⟩
      | markup l =>
        cases l with
        | nil => exact ⟨_, by simp only [crawlLoop, hs, List.append_assoc]; rfl⟩
        | cons b bs => exact ⟨_, by simp only [crawlLoop, hs, List.append_assoc]; rfl⟩

/-- Claim C2 at the badge `neco  2021`: the exam type is NECO and the year 2021. -/
theorem parseBadge_spec_witness :
    Occurrence "neco  2021".data [] "neco".data "  ".data "2021".data [] ∧
    parseBadge "neco  2021" = ("NECO", "2021") :=
  have hocc : Occurrence "neco  2021".data [] "neco".data "  ".data "2021".data [] := by
    unfold Occurrence
    decide
  ⟨hocc, (parseBadge_spec "neco  2021").1 [] "neco".data "  ".data "2021".data [] hocc
    (fun _ _ _ _ _ _ => Nat.zero_le _)⟩

/-- Claim C3 on one page of ten stubs followed by an empty page: pages 1 and 2 are
fetched and no other, ten saves are made, and the crawl returns 10. -/
theorem crawl_stops_at_empty_page_witness :
    fetched (scrapeByQuestionType tenStubSite true "objective" "Mathematics" "mathematics" 2).1
      = ["https://myschool.ng/classroom/mathematics?exam_type=waec&question_type=objective&page=1",
         "https://myschool.ng/classroom/mathematics?exam_type=waec&question_type=objective&page=2"] ∧
    (creates (scrapeByQuestionType tenStubSite true "objective" "Mathematics" "mathematics"
      2).1).length = 10 ∧
    (scrapeByQuestionType tenStubSite true "objective" "Mathematics" "mathematics" 2).2
      = CrawlResult.returned 10 :=
  have h := crawl_stops_at_empty_page tenStubSite true "objective" "Mathematics" "mathematics" 1 2
    (fun p h1 h2 => by
      have hp : p = 1 := by omega
      subst hp
      exact ⟨_, _, rfl⟩)
    rfl (by decide)
  ⟨h.1, h.2.2.1, h.2.2.2.2.2⟩

/-- Claim C4 on a page of two stubs whose saves both fail: the crawl returns 0,
it passed both records to the sink, and it wrote two save-error events. -/
theorem count_is_successful_saves_witness :
    (scrapeByQuestionType failingSaveSite true "theory" "Mathematics" "mathematics" 2).2
      = CrawlResult.returned 0 ∧
    (creates (scrapeByQuestionType failingSaveSite true "theory" "Mathematics" "mathematics"
      2).1).length = 2 ∧
    countEvents isSaveError
      (scrapeByQuestionType failingSaveSite true "theory" "Mathematics" "mathematics" 2).1 = 2 :=
  have hret : (scrapeByQuestionType failingSaveSite true "theory" "Mathematics" "mathematics"
      2).2 = CrawlResult.returned 0 := by
    decide
  have h := (count_is_successful_saves failingSaveSite true "theory" "Mathematics"
    "mathematics" 2 0 hret).2.2.1 1
    (fun p h1 h2 => by
      have hp : p = 1 := by omega
      subst hp
      exact ⟨_, _, rfl⟩)
    (by decide)
  ⟨hret, (congrArg List.length h.1).trans (by decide),
    (h.2.2.2 (by decide)).2⟩

/-- Claim C5 on one page with one stub followed by a page whose fetch fails: the
crawl returns 1 and writes one fetch-error event. -/
theorem fetch_failure_ends_crawl_witness :
    fetchFailSite 2 = Outcome.threw "Request failed with status code 500" ∧
    (scrapeByQuestionType fetchFailSite true "objective" "Mathematics" "mathematics" 2).2
      = CrawlResult.returned 1 ∧
    countEvents isFetchError
      (scrapeByQuestionType fetchFailSite true "objective" "Mathematics" "mathematics" 2).1 = 1 :=
  have h := fetch_failure_ends_crawl fetchFailSite true "objective" "Mathematics" "mathematics"
    1 2 "Request failed with status code 500"
    (fun p h1 h2 => by
      have hp : p = 1 := by omega
      subst hp
      exact ⟨_, _, rfl⟩)
    rfl (by decide)
  ⟨rfl, h.2.2.2.2.1, h.2.2.2.1⟩

/-- Claim C6 on the sample run: for every large enough fuel the run writes exactly
one `start` and one `end` event. -/
theorem run_start_end_witness :
    Halts (sampleEnv.site "objective") ∧
    ∃ F, ∀ fuel, F ≤ fuel →
      countEvents (fun ev => ev.type = "start")
        (scrapeAllQuestions sampleEnv "Mathematics" "mathematics" "session-1" allClients fuel).1
        = 1 ∧
      countEvents (fun ev => ev.type = "end")
        (scrapeAllQuestions sampleEnv "Mathematics" "mathematics" "session-1" allClients fuel).1
        = 1 :=
  ⟨⟨1, by decide⟩,
    ((run_start_end sampleEnv "Mathematics" "mathematics" "session-1" allClients rfl rfl
      rfl).1 ⟨1, by decide⟩ ⟨1, by decide⟩ ⟨0, by decide⟩).imp
      (fun _ hF fuel hfuel =>
        (hF fuel hfuel).elim fun _ h1 => h1.elim fun _ h2 => h2.elim fun _ h =>
          ⟨h.2.2.2.2.2.2.1, h.2.2.2.2.2.2.2.1⟩)⟩

/-- Claim C7, amended, on a stub whose explanation evaluation rejects: the record
keeps the answer read from the heading and has explanation `No explanation`. -/
theorem enrichment_failure_degrades_witness :
    (evaluateFailDetail.goto.isOk = true ∧ evaluateFailDetail.waitForSelector.isOk = true) ∧
    (recordOf "objective" "Mathematics"
        (BlockRun.mk sampleBlock evaluateFailDetail (Outcome.ok ()))).answer
      = answerOf "Correct Answer: B" ∧
    (recordOf "objective" "Mathematics"
        (BlockRun.mk sampleBlock evaluateFailDetail (Outcome.ok ()))).explanation
      = "No explanation" :=
  ⟨⟨rfl, rfl⟩,
    (enrichment_failure_degrades evaluateFailSite true "objective" "Mathematics" "mathematics"
      2).2.2.1 (BlockRun.mk sampleBlock evaluateFailDetail (Outcome.ok ())) "Correct Answer: B"
      "Execution context was destroyed" rfl rfl rfl rfl⟩

/-- Claim C8, amended, on the sample run: `browser.close` is called exactly
once. -/
theorem browser_closed_after_crawls_witness :
    sampleEnv.launch = Outcome.ok () ∧
    ∃ F, ∀ fuel, F ≤ fuel →
      closeCount
        (scrapeAllQuestions sampleEnv "Mathematics" "mathematics" "session-1" allClients fuel).1
        = 1 :=
  ⟨rfl,
    ((browser_closed_after_crawls sampleEnv "Mathematics" "mathematics" "session-1" allClients
      rfl).1 rfl ⟨1, by decide⟩ ⟨1, by decide⟩ ⟨0, by decide⟩).imp
      (fun _ hF fuel hfuel => (hF fuel hfuel).1)⟩

/-- Claim C9, amended, on the sample run: the events with `completed: true` are
the `end` event and the `success` event of the completion callback. -/
theorem completed_events_witness :
    allClients "session-1" = true ∧
    ∃ F, ∀ fuel, F ≤ fuel → ∃ total,
      (events (startScraping sampleEnv allClients sampleBody fuel).2).filter
        (fun ev => ev.completed) = [endEvent total, completedEvent] :=
  ⟨rfl,
    ((completed_events sampleEnv allClients "Mathematics" "mathematics" "session-1"
      (by decide) (by decide) (by decide) rfl).1 rfl rfl
      ⟨1, by decide⟩ ⟨1, by decide⟩ ⟨0, by decide⟩).imp
      (fun _ hF fuel hfuel => (hF fuel hfuel).imp fun _ h => h.2)⟩

/-- Claim C10, amended, on a crawl with one saved stub: the `saved` event carries
1, the number of saves made before it. -/
theorem crawl_totals_monotone_witness :
    (scrapeByQuestionType oneStubSite true "objective" "Mathematics" "mathematics" 2).1
      = ((scrapeByQuestionType oneStubSite true "objective" "Mathematics" "mathematics" 2).1.take 9)
        ++ Action.write (savedEvent 1)
        :: ((scrapeByQuestionType oneStubSite true "objective" "Mathematics" "mathematics"
            2).1.drop 10) ∧
    (savedEvent 1).totalScraped
      = some (savedCount
          ((scrapeByQuestionType oneStubSite true "objective" "Mathematics" "mathematics"
            2).1.take 9)) :=
  have hsplit : (scrapeByQuestionType oneStubSite true "objective" "Mathematics" "mathematics" 2).1
      = ((scrapeByQuestionType oneStubSite true "objective" "Mathematics" "mathematics" 2).1.take 9)
        ++ Action.write (savedEvent 1)
        :: ((scrapeByQuestionType oneStubSite true "objective" "Mathematics" "mathematics"
            2).1.drop 10) := by
    decide
  ⟨hsplit,
    (crawl_totals_monotone oneStubSite true "objective" "Mathematics" "mathematics" 2).1
      _ _ _ hsplit⟩

/-! ### Runs with and without a channel -/

@[simp] theorem silent_append (a b : List Action) : silent (a ++ b) = silent a ++ silent b := by
  induction a with
  | nil => rfl
  | cons x xs ih => cases x <;> simp [silent, ih]

theorem emit_false (ev : ProgressEvent) : emit false ev = [] := rfl

@[simp] theorem silent_emit (c : Bool) (ev : ProgressEvent) : silent (emit c ev) = [] := by
  cases c <;> rfl

theorem silent_obs (log : List Action) :
    fetched (silent log) = fetched log ∧ creates (silent log) = creates log ∧
    cycles (silent log) = cycles log ∧ closeCount (silent log) = closeCount log ∧
    events (silent log) = [] := by
  induction log with
  | nil => simp [silent, fetched, creates, cycles, closeCount, events]
  | cons a rest ih =>
    obtain ⟨i1, i2, i3, i4, i5⟩ := ih
    cases a <;>
      simp [silent, fetched, creates, cycles, closeCount, events, i1, i2, i3, i4, i5]

theorem enrich_silent (c : Bool) (t : Nat) (q : QuestionStub) (r : DetailResponses) :
    (enrich false t q r).1 = silent (enrich c t q r).1 := by
  rcases r with ⟨g, w, h, e⟩
  cases g <;> cases w <;> cases h <;> cases e <;> cases c <;> rfl

theorem save_silent (c : Bool) (t : Nat) (doc : EnrichedQuestion) (r : Outcome Unit) :
    (save false t doc r).1 = silent (save c t doc r).1 ∧
    (save false t doc r).2 = (save c t doc r).2 := by
  cases r <;> cases c <;> exact ⟨rfl, rfl⟩

theorem processStubs_silent (c : Bool) (qt sn : String) (bs : List BlockRun) :
    ∀ t, (processStubs false qt sn t bs).1 = silent (processStubs c qt sn t bs).1 ∧
      (processStubs false qt sn t bs).2 = (processStubs c qt sn t bs).2 := by
  induction bs with
  | nil => intro t; exact ⟨rfl, rfl⟩
  | cons b bs ih =>
    intro t
    rw [processStubs_cons, processStubs_cons]
    obtain ⟨s1, s2⟩ := save_silent c t (recordOf qt sn b) b.create
    obtain ⟨i1, i2⟩ := ih (save c t (recordOf qt sn b) b.create).2
    simp only [silent_append, s2, i1, i2, ← s1, ← enrich_silent c t, and_self]

theorem crawlLoop_silent (site : Site) (c : Bool) (qt sn ss : String) :
    ∀ fuel p t, (crawlLoop site false qt sn ss fuel p t).1
        = silent (crawlLoop site c qt sn ss fuel p t).1 ∧
      (crawlLoop site false qt sn ss fuel p t).2 = (crawlLoop site c qt sn ss fuel p t).2 := by
  intro fuel
  induction fuel with
  | zero => intro p t; exact ⟨rfl, rfl⟩
  | succ f ih =>
    intro p t
    cases hs : site p with
    | threw m => simp [crawlLoop, hs, silent, emit_false]
    | ok data =>
      cases data with
      | unloadable m => simp [crawlLoop, hs, silent, emit_false]
      | markup l =>
        cases l with
        | nil => simp [crawlLoop, hs, silent, emit_false]
        | cons b bs =>
          obtain ⟨s1, s2⟩ := processStubs_silent c qt sn (b :: bs) t
          obtain ⟨i1, i2⟩ := ih (p + 1) (processStubs c qt sn t (b :: bs)).2
          simp only [crawlLoop, hs, silent_append, silent_emit, s2, i1, i2, ← s1]
          simp [silent, emit_false]

theorem crawlAll_silent (env : RunEnv) (c : Bool) (sn ss : String) (fuel : Nat)
    (qts : List String) :
    ∀ total, (crawlAll env false sn ss fuel qts total).1
        = silent (crawlAll env c sn ss fuel qts total).1 ∧
      (crawlAll env false sn ss fuel qts total).2 = (crawlAll env c sn ss fuel qts total).2 := by
  induction qts with
  | nil => intro total; exact ⟨rfl, rfl⟩
  | cons qt qts ih =>
    intro total
    obtain ⟨s1, s2⟩ := crawlLoop_silent (env.site qt) c qt sn ss fuel 1 0
    simp only [crawlAll, scrapeByQuestionType, s2]
    cases hr : (crawlLoop (env.site qt) c qt sn ss fuel 1 0).2 with
    | running => exact ⟨s1, rfl⟩
    | threw m => exact ⟨s1, rfl⟩
    | returned n =>
      obtain ⟨i1, i2⟩ := ih (total + n)
      simp only [silent_append, s1, i1, i2, and_self]

theorem run_silent (env : RunEnv) (sn ss sid : String) (clients quiet : String → Bool)
    (hquiet : quiet sid = false) (fuel : Nat) :
    (scrapeAllQuestions env sn ss sid quiet fuel).1
        = silent (scrapeAllQuestions env sn ss sid clients fuel).1 ∧
      (scrapeAllQuestions env sn ss sid quiet fuel).2
        = (scrapeAllQuestions env sn ss sid clients fuel).2 := by
  obtain ⟨c1, c2⟩ := crawlAll_silent env (clients sid) sn ss fuel questionTypes 0
  cases hl : env.launch with
  | threw m => simp [scrapeAllQuestions, hl, silent]
  | ok u =>
    cases hp : env.newPage with
    | threw m => simp [scrapeAllQuestions, hl, hp, silent]
    | ok v =>
      simp only [scrapeAllQuestions, hl, hp, hquiet, c2]
      cases hr : (crawlAll env (clients sid) sn ss fuel questionTypes 0).2 with
      | running => simp [c1, silent, emit_false]
      | threw m => simp [c1, silent, emit_false]
      | returned total => simp [c1, silent, emit_false]

/-- Claim C11: take two runs of `scrapeAllQuestions` that meet the same answers
of the site, the browser and the sink, the second with no channel registered for
the session id (the first with or without one).  The steps of the second run are
those of the first with the channel writes left out: the same pages fetched in
the same order, the same records passed to the sink with the same results, the
same count (or none yet) returned by the crawl of each question type.  The second
run writes no event, and it settles as the first does: it resolves when the
first resolves and rejects only with the error the first rejects with. -/
theorem scrape_independent_of_observer (env : RunEnv)
    (subjectName subjectSlug sessionId : String) (observed quiet : String → Bool)
    (hquiet : quiet sessionId = false) (fuel : Nat) :
    (scrapeAllQuestions env subjectName subjectSlug sessionId quiet fuel).1
      = silent (scrapeAllQuestions env subjectName subjectSlug sessionId observed fuel).1 ∧
    fetched (scrapeAllQuestions env subjectName subjectSlug sessionId quiet fuel).1
      = fetched (scrapeAllQuestions env subjectName subjectSlug sessionId observed fuel).1 ∧
    creates (scrapeAllQuestions env subjectName subjectSlug sessionId quiet fuel).1
      = creates (scrapeAllQuestions env subjectName subjectSlug sessionId observed fuel).1 ∧
    (∀ questionType,
      (scrapeByQuestionType (env.site questionType) (quiet sessionId) questionType subjectName
          subjectSlug fuel).2
        = (scrapeByQuestionType (env.site questionType) (observed sessionId) questionType
            subjectName subjectSlug fuel).2 ∧
      fetched (scrapeByQuestionType (env.site questionType) (quiet sessionId) questionType
            subjectName subjectSlug fuel).1
        = fetched (scrapeByQuestionType (env.site questionType) (observed sessionId)
            questionType subjectName subjectSlug fuel).1 ∧
      creates (scrapeByQuestionType (env.site questionType) (quiet sessionId) questionType
            subjectName subjectSlug fuel).1
        = creates (scrapeByQuestionType (env.site questionType) (observed sessionId)
            questionType subjectName subjectSlug fuel).1) ∧
    events (scrapeAllQuestions env subjectName subjectSlug sessionId quiet fuel).1 = [] ∧
    (scrapeAllQuestions env subjectName subjectSlug sessionId quiet fuel).2
      = (scrapeAllQuestions env subjectName subjectSlug sessionId observed fuel).2 := by
  obtain ⟨hlog, hres⟩ :=
    run_silent env subjectName subjectSlug sessionId observed quiet hquiet fuel
  obtain ⟨o1, o2, _, _, o5⟩ :=
    silent_obs (scrapeAllQuestions env subjectName subjectSlug sessionId observed fuel).1
  refine ⟨hlog, by rw [hlog, o1], by rw [hlog, o2], ?_, by rw [hlog, o5], hres⟩
  intro questionType
  obtain ⟨c1, c2⟩ := crawlLoop_silent (env.site questionType) (observed sessionId) questionType
    subjectName subjectSlug fuel 1 0
  obtain ⟨p1, p2, _, _, _⟩ := silent_obs
    (crawlLoop (env.site questionType) (observed sessionId) questionType subjectName
      subjectSlug fuel 1 0).1
  simp only [scrapeByQuestionType, hquiet]
  exact ⟨c2, by rw [c1, p1], by rw [c1, p2]⟩

/-- Claim C11 on the sample run, with a channel for every session and with none:
the same two records reach the sink, the run without a channel writes no event,
and it resolves. -/
theorem scrape_independent_of_observer_witness :
    noClients "session-1" = false ∧
    creates (scrapeAllQuestions sampleEnv "Mathematics" "mathematics" "session-1" noClients 3).1
      = creates
          (scrapeAllQuestions sampleEnv "Mathematics" "mathematics" "session-1" allClients 3).1 ∧
    events (scrapeAllQuestions sampleEnv "Mathematics" "mathematics" "session-1" noClients 3).1
      = [] ∧
    (scrapeAllQuestions sampleEnv "Mathematics" "mathematics" "session-1" noClients 3).2
      = (scrapeAllQuestions sampleEnv "Mathematics" "mathematics" "session-1" allClients 3).2 :=
  have h := scrape_independent_of_observer sampleEnv "Mathematics" "mathematics" "session-1"
    allClients noClients rfl 3
  ⟨rfl, h.2.2.1, h.2.2.2.2.1, h.2.2.2.2.2⟩

/-- Claim C12 fails as stated: the sample run, whose three crawls return 1, 1 and
0, resolves to `undefined`, not to the number 2. -/
theorem run_resolves_undefined :
    (scrapeByQuestionType (sampleEnv.site "objective") true "objective" "Mathematics"
      "mathematics" 3).2 = CrawlResult.returned 1 ∧
    (scrapeByQuestionType (sampleEnv.site "theory") true "theory" "Mathematics"
      "mathematics" 3).2 = CrawlResult.returned 1 ∧
    (scrapeByQuestionType (sampleEnv.site "practical") true "practical" "Mathematics"
      "mathematics" 3).2 = CrawlResult.returned 0 ∧
    (scrapeAllQuestions sampleEnv "Mathematics" "mathematics" "session-1" allClients 3).2
      = Completion.resolved JsValue.undefined ∧
    (scrapeAllQuestions sampleEnv "Mathematics" "mathematics" "session-1" allClients 3).2
      ≠ Completion.resolved (JsValue.number (1 + 1 + 0)) := by
  decide

/-- Claim C12, amended: a run of `scrapeAllQuestions` that resolves resolves to
`undefined`.  Its three crawls returned counts `n1`, `n2`, `n3`, and their sum is
carried by the `end` event, written (when a channel is there) as the last step of
the run, right after the close of the browser. -/
theorem run_value (env : RunEnv) (subjectName subjectSlug sessionId : String)
    (clients : String → Bool) (fuel : Nat) (value : JsValue)
    (hres : (scrapeAllQuestions env subjectName subjectSlug sessionId clients fuel).2
      = Completion.resolved value) :
    value = JsValue.undefined ∧
    ∃ n1 n2 n3,
      (scrapeByQuestionType (env.site "objective") (clients sessionId) "objective" subjectName
        subjectSlug fuel).2 = CrawlResult.returned n1 ∧
      (scrapeByQuestionType (env.site "theory") (clients sessionId) "theory" subjectName
        subjectSlug fuel).2 = CrawlResult.returned n2 ∧
      (scrapeByQuestionType (env.site "practical") (clients sessionId) "practical" subjectName
        subjectSlug fuel).2 = CrawlResult.returned n3 ∧
      (endEvent (n1 + n2 + n3)).totalScraped = some (n1 + n2 + n3) ∧
      ∃ pre, (scrapeAllQuestions env subjectName subjectSlug sessionId clients fuel).1
        = pre ++ Action.close :: emit (clients sessionId) (endEvent (n1 + n2 + n3)) := by
  cases hl : env.launch with
  | threw m => simp [scrapeAllQuestions, hl] at hres
  | ok u =>
    cases hp : env.newPage with
    | threw m => simp [scrapeAllQuestions, hl, hp] at hres
    | ok v =>
      cases h1 : (scrapeByQuestionType (env.site "objective") (clients sessionId) "objective"
          subjectName subjectSlug fuel).2 with
      | running => simp [scrapeAllQuestions, hl, hp, crawlAll, questionTypes, h1] at hres
      | threw m => simp [scrapeAllQuestions, hl, hp, crawlAll, questionTypes, h1] at hres
      | returned n1 =>
        cases h2 : (scrapeByQuestionType (env.site "theory") (clients sessionId) "theory"
            subjectName subjectSlug fuel).2 with
        | running =>
          simp [scrapeAllQuestions, hl, hp, crawlAll, questionTypes, h1, h2] at hres
        | threw m =>
          simp [scrapeAllQuestions, hl, hp, crawlAll, questionTypes, h1, h2] at hres
        | returned n2 =>
          cases h3 : (scrapeByQuestionType (env.site "practical") (clients sessionId)
              "practical" subjectName subjectSlug fuel).2 with
          | running =>
            simp [scrapeAllQuestions, hl, hp, crawlAll, questionTypes, h1, h2, h3] at hres
          | threw m =>
            simp [scrapeAllQuestions, hl, hp, crawlAll, questionTypes, h1, h2, h3] at hres
          | returned n3 =>
            have hrun := run_resolved env subjectName subjectSlug sessionId clients fuel
              n1 n2 n3 hl hp h1 h2 h3
            rw [hrun] at hres
            refine ⟨?_, n1, n2, n3, rfl, rfl, rfl, rfl, ?_⟩
            · exact (Completion.resolved.inj hres).symm
            · rw [hrun]
              exact ⟨[Action.launch true, Action.newPage true]
                ++ emit (clients sessionId) (startEvent subjectName)
                ++ ((scrapeByQuestionType (env.site "objective") (clients sessionId)
                    "objective" subjectName subjectSlug fuel).1
                  ++ ((scrapeByQuestionType (env.site "theory") (clients sessionId) "theory"
                    subjectName subjectSlug fuel).1
                  ++ (scrapeByQuestionType (env.site "practical") (clients sessionId)
                    "practical" subjectName subjectSlug fuel).1)),
                by simp only [List.append_assoc, List.singleton_append]⟩

/-- Claim C12, amended, on the sample run: it resolves to `undefined`, and its
steps end with the close of the browser and the `end` event. -/
theorem run_value_witness :
    (scrapeAllQuestions sampleEnv "Mathematics" "mathematics" "session-1" allClients 3).2
      = Completion.resolved JsValue.undefined ∧
    ∃ pre total,
      (scrapeAllQuestions sampleEnv "Mathematics" "mathematics" "session-1" allClients 3).1
        = pre ++ Action.close :: emit (allClients "session-1") (endEvent total) :=
  have hres : (scrapeAllQuestions sampleEnv "Mathematics" "mathematics" "session-1"
      allClients 3).2 = Completion.resolved JsValue.undefined := by
    decide
  ⟨hres,
    (run_value sampleEnv "Mathematics" "mathematics" "session-1" allClients 3
      JsValue.undefined hres).2.elim fun n1 h1 => h1.elim fun n2 h2 => h2.elim fun n3 h =>
        h.2.2.2.2.elim fun pre hpre => ⟨pre, n1 + n2 + n3, hpre⟩⟩

end Scraper
